import Mathlib

/-!
Verification development for the `metadate-search` repository.

The Python sources (`src/core.py`, `src/gui.py`) are shallowly embedded below.
Modelling conventions:
* Python `dict` objects (metadata records) are association lists `Dict` of
  `String × Value` kept in insertion order; `dictSet` models `d[k] = v`
  (replace in place if the key exists, append otherwise) and `dictUpdate`
  models `d.update(e)`.
* Python values stored in records are modelled by `Value`
  (`str` / `int` / `None`); the program only ever stores these shapes.
* Python `float` arithmetic is modelled by exact rationals `Rat`; the claims
  checked here only involve values whose printed decimal digits are far from
  binary64 rounding boundaries, so the rational model yields the same digits.
* External collaborators (file system, exifread, PIL, piexif, geopy,
  reverse_geocoder, hashlib digests, folium, `str(float)` rendering and
  `float(str)` parsing) are oracles collected in an `Env` record; each call
  site of the source reads the corresponding oracle.  Fallible calls return
  `Except String α` — an `.error` models the call raising an exception.
* Source-level `try/except` blocks become matches on those `Except` results.
  Totality of every embedded function models the "never raises" contracts.
-/

/-- A Python value stored in a metadata record: `str`, `int` or `None`. -/
inductive Value where
  | vStr (s : String)
  | vInt (n : Int)
  | vNone
deriving DecidableEq, Repr

/-- A Python dict in insertion order. -/
abbrev Dict := List (String × Value)

/-- `str(value)` for record values. -/
def pyStr : Value → String
  | .vStr s => s
  | .vInt n => toString n
  | .vNone => "None"

/-- `d[k] = v`: replace in place when the key is present, else append.
(Recursive formulation; a Python dict never holds a duplicate key, so
replacing the first occurrence is the exact semantics.) -/
def dictSet : Dict → String → Value → Dict
  | [], k, v => [(k, v)]
  | kv :: rest, k, v =>
    if kv.1 = k then (k, v) :: rest else kv :: dictSet rest k v

/-- `d.update(e)`: assign every pair of `e` into `d` in order. -/
def dictUpdate (d e : Dict) : Dict :=
  e.foldl (fun acc kv => dictSet acc kv.1 kv.2) d

/-- `d[k]` lookup (first — and in a real dict only — binding of `k`). -/
def dictGet (d : Dict) (k : String) : Option Value :=
  (d.find? (fun kv => decide (kv.1 = k))).map (·.2)

/-! ### String helpers mirroring Python `str` methods (ASCII-level) -/

/-- Is `n` a prefix of `h` (char lists)? -/
def chPre : List Char → List Char → Bool
  | [], _ => true
  | _ :: _, [] => false
  | a :: as, b :: bs => a = b && chPre as bs

/-- Does `h` contain `n` as a contiguous run (Python `n in h`)? -/
def chSub (n : List Char) : List Char → Bool
  | [] => chPre n []
  | c :: t => chPre n (c :: t) || chSub n t

/-- Python substring test `needle in hay`. -/
def containsSub (hay needle : String) : Bool :=
  chSub needle.data hay.data

/-- `strStarts p k`: does `k` start with `p`?  Used to reason about key
namespaces. -/
def strStarts (p k : String) : Bool :=
  chPre p.data k.data

/-- Python `str.lower()` (ASCII letters; metadata keys are ASCII). -/
def pyLower (s : String) : String := s.map Char.toLower

/-- Python `str.upper()` (ASCII letters). -/
def pyUpper (s : String) : String := s.map Char.toUpper

/-- The characters stripped by Python `str.strip()`. -/
def isPySpace (c : Char) : Bool :=
  c == ' ' || c == '\t' || c == '\n' || c == '\r' || c == '\x0b' || c == '\x0c'

/-- Python `str.strip()` on char lists. -/
def pyStripL (cs : List Char) : List Char :=
  ((cs.dropWhile isPySpace).reverse.dropWhile isPySpace).reverse

/-- Python `str.strip()`. -/
def pyStrip (s : String) : String := ⟨pyStripL s.data⟩

/-! ### Fixed-point decimal formatting, modelling Python `f"{x:.Nf}"`

Python formats the decimal expansion with round-half-even.  On the exact
rational stand-ins used here the digits agree with CPython's binary64
formatting because none of the formatted values sits within double-precision
error of a rounding boundary. -/

/-- Round a nonnegative rational to the nearest integer, ties to even. -/
def roundHalfEven (q : Rat) : Nat :=
  let n := q.num.toNat
  let d := q.den
  let i := n / d
  let r := n % d
  if 2 * r < d then i
  else if 2 * r > d then i + 1
  else if i % 2 = 0 then i else i + 1

/-- Left-pad a numeral string with zeros to width `w`. -/
def padZeros (s : String) (w : Nat) : String :=
  ⟨List.replicate (w - s.length) '0'⟩ ++ s

/-- `f"{q:.pf}"` for nonnegative `q`. -/
def formatFixedNonneg (q : Rat) (p : Nat) : String :=
  let total := roundHalfEven (q * (10 ^ p : Nat))
  let ip := total / 10 ^ p
  if p = 0 then toString ip
  else toString ip ++ "." ++ padZeros (toString (total % 10 ^ p)) p

/-- `f"{q:.pf}"`, sign included (Python keeps the sign, e.g. `"-0.00"`). -/
def formatFixed (q : Rat) (p : Nat) : String :=
  if q < 0 then "-" ++ formatFixedNonneg (-q) p else formatFixedNonneg q p

/-! ### A concrete model of `float(str)` for witnesses

The embeddings are parameterised over the parse function (an oracle in
`Env`); `parseDec` is a concrete instance covering plain signed decimal
numerals, used to instantiate counterexamples and witnesses. -/

/-- Numeric value of a digit run. -/
def digitsVal (cs : List Char) : Nat :=
  cs.foldl (fun acc c => acc * 10 + (c.toNat - 48)) 0

/-- Parse a plain signed decimal numeral the way Python `float()` accepts it
(whitespace-stripped; integer part, optional fraction). -/
def parseDec (s : String) : Option Rat :=
  let cs := (pyStrip s).data
  let signed : Bool × List Char :=
    match cs with
    | '-' :: t => (true, t)
    | '+' :: t => (false, t)
    | _ => (false, cs)
  let neg := signed.1
  let body := signed.2
  let ip := body.takeWhile Char.isDigit
  let rest := body.drop ip.length
  let mag : Option Rat :=
    match rest with
    | [] => if ip.isEmpty then none else some (digitsVal ip)
    | '.' :: fp =>
      if fp.all Char.isDigit && !(ip.isEmpty && fp.isEmpty) then
        some ((digitsVal ip : Rat) + (digitsVal fp : Rat) / ((10 : Rat) ^ fp.length))
      else none
    | _ => none
  mag.map (fun m => if neg then -m else m)

/-! ### Byte-level helpers (UTF-8, byte search) -/

/-- UTF-8 encoding of one character (`str.encode()` building block). -/
def encodeChar (c : Char) : List Nat :=
  let n := c.toNat
  if n < 0x80 then [n]
  else if n < 0x800 then [0xC0 + n / 64, 0x80 + n % 64]
  else if n < 0x10000 then
    [0xE0 + n / 4096, 0x80 + (n / 64) % 64, 0x80 + n % 64]
  else
    [0xF0 + n / 262144, 0x80 + (n / 4096) % 64, 0x80 + (n / 64) % 64, 0x80 + n % 64]

/-- Python `s.encode('utf-8')` as a byte list. -/
def strBytes (s : String) : List Nat :=
  s.data.foldr (fun c acc => encodeChar c ++ acc) []

/-- Python `bytes.decode('utf-8', errors='ignore')`: decode, silently
skipping malformed bytes.  Fuel-based recursion; the wrapper passes the
byte count as fuel, which always suffices since every step consumes at
least one byte. -/
def decodeUtf8Aux : Nat → List Nat → List Char
  | 0, _ => []
  | _, [] => []
  | fuel + 1, b :: rest =>
    if b < 0x80 then Char.ofNat b :: decodeUtf8Aux fuel rest
    else if 0xC2 ≤ b && b ≤ 0xDF then
      match rest with
      | b2 :: rest2 =>
        if 0x80 ≤ b2 && b2 ≤ 0xBF then
          Char.ofNat ((b - 0xC0) * 64 + (b2 - 0x80)) :: decodeUtf8Aux fuel rest2
        else decodeUtf8Aux fuel rest
      | [] => []
    else if 0xE0 ≤ b && b ≤ 0xEF then
      match rest with
      | b2 :: b3 :: rest3 =>
        if 0x80 ≤ b2 && b2 ≤ 0xBF && 0x80 ≤ b3 && b3 ≤ 0xBF then
          Char.ofNat ((b - 0xE0) * 4096 + (b2 - 0x80) * 64 + (b3 - 0x80)) ::
            decodeUtf8Aux fuel rest3
        else decodeUtf8Aux fuel rest
      | _ => []
    else if 0xF0 ≤ b && b ≤ 0xF4 then
      match rest with
      | b2 :: b3 :: b4 :: rest4 =>
        if 0x80 ≤ b2 && b2 ≤ 0xBF && 0x80 ≤ b3 && b3 ≤ 0xBF && 0x80 ≤ b4 && b4 ≤ 0xBF then
          Char.ofNat ((b - 0xF0) * 262144 + (b2 - 0x80) * 4096 + (b3 - 0x80) * 64
              + (b4 - 0x80)) :: decodeUtf8Aux fuel rest4
        else decodeUtf8Aux fuel rest
      | _ => []
    else decodeUtf8Aux fuel rest

/-- Decode a byte slice to a `String` (permissive UTF-8). -/
def decodeStr (bs : List Nat) : String := ⟨decodeUtf8Aux bs.length bs⟩

/-- Is `n` a prefix of `h` (byte lists)? -/
def bytesPre : List Nat → List Nat → Bool
  | [], _ => true
  | _ :: _, [] => false
  | a :: as, b :: bs => a = b && bytesPre as bs

/-- First index `≥ 0` in `h` where `n` starts (auxiliary). -/
def bytesFindAux (n : List Nat) : List Nat → Nat → Option Nat
  | [], i => if bytesPre n [] then some i else none
  | b :: t, i => if bytesPre n (b :: t) then some i else bytesFindAux n t (i + 1)

/-- Python `bytes.find(n, start)` (`none` models `-1`). -/
def bytesFind (hay n : List Nat) (start : Nat) : Option Nat :=
  (bytesFindAux n (hay.drop start) 0).map (· + start)

/-! ### Oracle structures for external collaborators -/

/-- The shapes a metadata reader hands to `_process_exif_value`
(`RawValue` of the spec): `None`, raw bytes, an object exposing `.values`
(exifread tags, `Ratio`s — `valuesStr` is `str(value.values)`, `none` when
that stringification raises, in which case the source falls back to
`str(value)`), a `list`/`tuple` (elements pre-stringified), or a scalar. -/
inductive RawValue where
  | pyNone
  | bytes (bs : List Nat)
  | withValues (valuesStr : Option String) (str : String)
  | seq (elems : List String)
  | scalar (v : Value)
deriving DecidableEq, Repr

/-- An exifread tag object: `raw` is its shape for value processing,
`vals` the float values of `value.values` (used by the GPS pass) and
`str` its `str()` rendering. -/
structure IfdTag where
  raw : RawValue
  vals : List Rat
  str : String
deriving Repr

/-- A geopy reverse-geocoding `address` component dictionary (absent keys
are `none`). -/
structure Address where
  country : Option String := none
  country_code : Option String := none
  state : Option String := none
  city : Option String := none
  town : Option String := none
  postcode : Option String := none
  road : Option String := none
  aeroway : Option String := none
  tourism : Option String := none
  historic : Option String := none
  leisure : Option String := none
  waterway : Option String := none
deriving Repr

/-- A geopy `Location`: structured address plus `location.address`. -/
structure Location where
  address : Address
  fullAddress : String
deriving Repr

/-- A `reverse_geocoder` result record. -/
structure RGRec where
  cc : Option String := none
  name : Option String := none
  admin1 : Option String := none
  admin2 : Option String := none
deriving Repr

/-- `os.stat` result (the fields the source reads). -/
structure PyStat where
  size : Int
  ctime : Rat
  mtime : Rat
deriving Repr

/-- A PIL image handle: the attributes the source reads.  `exifData` is
`img._getexif()` (tag names pre-resolved through `ExifTags.TAGS`), `info`
the stringified `img.info` items and `icc` the `icc_profile` bytes when
present. -/
structure PILImage where
  format : String
  mode : String
  width : Int
  height : Int
  bands : List String
  exifData : Option (List (String × RawValue))
  info : List (String × String)
  icc : Option (List Nat)
deriving Repr

/-- One piexif IFD entry: numeric tag, the `piexif.TAGS[ifd][tag]["name"]`
lookup (`.error` models the `KeyError` the source records), and the value. -/
structure PiexifEntry where
  tag : Int
  tagName : Except String String
  value : RawValue
deriving Repr

/-- Parsed ICC profile fields. -/
structure IccInfo where
  description : String
  manufacturer : String
  model : String
  copyright : String
deriving Repr

/-- Oracles for every external collaborator the source calls.  `.error e`
models the call raising an exception whose `str()` is `e`. -/
structure Env where
  /-- `os.stat(path)`. -/
  stat : String → Except String PyStat
  /-- `os.path.abspath(path)`. -/
  abspath : String → String
  /-- `datetime.fromtimestamp(t).isoformat()`. -/
  isoTime : Rat → String
  /-- `open(path,'rb').read()`. -/
  readFile : String → Except String (List Nat)
  /-- `exifread.process_file(f, details=True, strict=True, debug=True)`. -/
  exifDebug : String → Except String (List (String × IfdTag))
  /-- `exifread.process_file(f)`. -/
  exifPlain : String → Except String (List (String × IfdTag))
  /-- `exifread.process_file(f, details=True)`. -/
  exifDetails : String → Except String (List (String × IfdTag))
  /-- `Image.open(path)`. -/
  pilOpen : String → Except String PILImage
  /-- `piexif.load(path)`: IFD name ↦ entries. -/
  piexifLoad : String → Except String (List (String × List PiexifEntry))
  /-- `ImageCms` profile parsing of the ICC bytes. -/
  iccParse : List Nat → Except String IccInfo
  /-- `self.geolocator.reverse(query, language='en')` (enhancer, first call). -/
  reverse1 : String → Except String (Option Location)
  /-- `self.geolocator.reverse(query)` (inside `_analyze_location_type`). -/
  reverse2 : String → Except String (Option Location)
  /-- `rg.search((lat, lon))`. -/
  rgSearch : Rat × Rat → Except String (List RGRec)
  /-- `hashlib.md5(bytes).hexdigest()`. -/
  md5 : List Nat → String
  /-- `hashlib.sha1(bytes).hexdigest()`. -/
  sha1 : List Nat → String
  /-- `hashlib.sha256(bytes).hexdigest()`. -/
  sha256 : List Nat → String
  /-- folium map construction and `m.save(path)`; `.error` models a raise. -/
  foliumSave : Rat × Rat → Except String Unit
  /-- `tempfile.gettempdir()`. -/
  tempDir : String
  /-- Python `str(float)` rendering (repr of the binary64 value). -/
  fstr : Rat → String
  /-- Python `float(str)` parsing (`none` models `ValueError`). -/
  parseFloat : String → Option Rat

/-- `float(value)` on a record value: numbers convert, strings parse,
`None` raises (`none`). -/
def pyFloatV (env : Env) : Value → Option Rat
  | .vStr s => env.parseFloat s
  | .vInt n => some (n : Rat)
  | .vNone => none

/-! ### `UltraMetadataExtractor._process_exif_value` -/

/-- `UltraMetadataExtractor._process_exif_value` (src/core.py:744-781).
`none` models returning Python `None`.  The `try` around `.decode(...,
errors='ignore')` and the outer `try` cannot fire in the model: permissive
decoding and the remaining operations are total. -/
def process_exif_value : RawValue → Option String
  | .pyNone => none
  | .bytes bs =>
    let decoded := pyStrip (decodeStr bs)
    if decoded ≠ "" ∧ ¬(decoded.data.all fun c => c == '\x00' || c == ' ') then
      some decoded
    else
      some ("binary_data_" ++ toString bs.length ++ "_bytes")
  | .withValues ovs s => some (ovs.getD s)
  | .seq elems =>
    if elems.length > 0 then some (String.intercalate "|" elems) else none
  | .scalar v =>
    let sv := pyStrip (pyStr v)
    if sv ≠ "" then some sv else none

/-! ### GPS conversions -/

/-- `UltraMetadataExtractor._convert_gps_coord` (src/core.py:783-798),
generic in the element type: `toF` models `float(·)` on the sequence
elements, `none` modelling a raise, which the source's `except` turns into
`0.0`. -/
def convert_gps_coord {α : Type} (toF : α → Option Rat) (values : List α) : Rat :=
  match values with
  | a :: b :: c :: _ =>
    match toF a, toF b, toF c with
    | some d, some m, some s => d + m / 60 + s / 3600
    | _, _, _ => 0
  | [a, b] =>
    match toF a, toF b with
    | some d, some m => d + m / 60
    | _, _ => 0
  | [a] => (toF a).getD 0
  | [] => 0

/-- `UltraMetadataExtractor._decimal_to_dms` (src/core.py:800-815). -/
def decimal_to_dms (decimal : Rat) (is_lat : Bool) : String :=
  let direction :=
    if decimal < 0 then (if is_lat then "S" else "W")
    else (if is_lat then "N" else "E")
  let dec := if decimal < 0 then -decimal else decimal
  let degrees : Int := ⌊dec⌋
  let minutes_decimal := (dec - degrees) * 60
  let minutes : Int := ⌊minutes_decimal⌋
  let seconds := (minutes_decimal - minutes) * 60
  toString degrees ++ "° " ++ toString minutes ++ "' " ++
    formatFixed seconds 2 ++ "\" " ++ direction

/-! ### Path and repr helpers -/

/-- `os.path.basename` (POSIX separators). -/
def pyBasename (path : String) : String :=
  ((path.splitOn "/").getLastD "")

/-- `os.path.splitext(path)[1]`: the extension of the basename, starting at
its last dot that has some non-dot character before it. -/
def pyExt (path : String) : String :=
  let b := (pyBasename path).data
  let idxs := (List.range b.length).filter
    (fun i => b.getD i ' ' = '.' ∧ (b.take i).any (fun c => c ≠ '.'))
  match idxs.getLast? with
  | some i => ⟨b.drop i⟩
  | none => ""

/-- Python `repr` of a record value as it appears inside `str(dict)`
(strings single-quoted; escaping inside the quotes is not modelled, which
is exact for the key/value material the source inspects). -/
def pyReprV : Value → String
  | .vStr s => "'" ++ s ++ "'"
  | .vInt n => toString n
  | .vNone => "None"

/-- Python `str(dict)` for a metadata record. -/
def pyStrOfDict (d : Dict) : String :=
  "\x7b" ++ String.intercalate ", "
    (d.map fun kv => "'" ++ kv.1 ++ "': " ++ pyReprV kv.2) ++ "\x7d"

/-- Python `repr` of a tuple of strings, e.g. `str(img.getbands())`. -/
def pyReprTuple (xs : List String) : String :=
  match xs with
  | [x] => "('" ++ x ++ "',)"
  | _ => "(" ++ String.intercalate ", " (xs.map fun s => "'" ++ s ++ "'") ++ ")"

/-- Truthiness of an optional string (`if x:` on `dict.get` results). -/
def truthyOpt : Option String → Bool
  | some s => s ≠ ""
  | none => false

/-! ### `OSINTEnhancer._extract_coordinates` (src/core.py:268-305) -/

/-- One step of the first search loop: keys containing `gps` and `decimal`
feed the latitude (keys containing `latitude`) or else the longitude
component; each successful `float(value)` overwrites the component, parse
failures are swallowed by the inner `except` blocks. -/
def coordTier1Step (env : Env) (st : Option Rat × Option Rat)
    (kv : String × Value) : Option Rat × Option Rat :=
  if containsSub (pyLower kv.1) "gps" && containsSub (pyLower kv.1) "decimal" then
    if containsSub (pyLower kv.1) "latitude" then
      match pyFloatV env kv.2 with
      | some q => (some q, st.2)
      | none => st
    else if containsSub (pyLower kv.1) "longitude" then
      match pyFloatV env kv.2 with
      | some q => (st.1, some q)
      | none => st
    else st
  else st

/-- Body of the alternative search on a `coordinates` key: split on commas,
and when there are exactly two parts assign `lat` then `lon`; a failing
second parse leaves the freshly-assigned `lat` in place (the source's
`except: continue` fires after `lat` was already rebound). -/
def coordTier2Body (env : Env) (st : Option Rat × Option Rat)
    (kv : String × Value) : Option Rat × Option Rat :=
  match (pyStr kv.2).splitOn "," with
  | [c1, c2] =>
    match env.parseFloat (pyStrip c1) with
    | none => st
    | some a =>
      match env.parseFloat (pyStrip c2) with
      | none => (some a, st.2)
      | some b => (some a, some b)
  | _ => st

/-- One step of the alternative search loop (guard on the key). -/
def coordTier2Step (env : Env) (st : Option Rat × Option Rat)
    (kv : String × Value) : Option Rat × Option Rat :=
  if containsSub (pyLower kv.1) "coordinates" then coordTier2Body env st kv else st

/-- The guard around the alternative search: it runs only when a component
is still unresolved (`if lat is None or lon is None`). -/
def tier2Maybe (env : Env) (metadata : Dict) (s1 : Option Rat × Option Rat) :
    Option Rat × Option Rat :=
  if s1.1 = none ∨ s1.2 = none then metadata.foldl (coordTier2Step env) s1 else s1

/-- The final `if lat is not None and lon is not None: return (lat, lon)`. -/
def coordFinish : Option Rat × Option Rat → Option (Rat × Rat)
  | (some lat, some lon) => some (lat, lon)
  | _ => none

/-- `OSINTEnhancer._extract_coordinates`.  Total (the source's blanket
`except: return None` has nothing left to catch in the model). -/
def extract_coordinates (env : Env) (metadata : Dict) : Option (Rat × Rat) :=
  coordFinish (tier2Maybe env metadata (metadata.foldl (coordTier1Step env) (none, none)))

/-! ### Remaining OSINTEnhancer helpers -/

/-- `OSINTEnhancer._coord_to_3words` (src/core.py:307-309). -/
def coord_to_3words (env : Env) (lat lon : Rat) : String :=
  "demo.words." ++ ((env.md5 (strBytes (env.fstr lat ++ env.fstr lon))).take 8)

/-- `OSINTEnhancer._analyze_location_type` (src/core.py:311-333).  When the
geocoder returns no location the source falls off the `if` with no
`return`: Python yields `None`, modelled by `.vNone`. -/
def analyze_location_type (env : Env) (lat lon : Rat) : Value :=
  match env.reverse2 (env.fstr lat ++ ", " ++ env.fstr lon) with
  | .error _ => .vStr "Unknown"
  | .ok none => .vNone
  | .ok (some loc) =>
    let address := loc.address
    if truthyOpt address.aeroway then .vStr "Airport/Transport"
    else if truthyOpt address.tourism then .vStr "Tourist location"
    else if truthyOpt address.historic then .vStr "Historic site"
    else if truthyOpt address.leisure then .vStr "Leisure area"
    else if truthyOpt address.waterway then .vStr "Water area"
    else .vStr "Urban/Residential"

/-- `OSINTEnhancer._extract_lens_info` (src/core.py:335-347). -/
def extract_lens_info (metadata : Dict) : Option String :=
  let lens_data := metadata.foldl
    (fun acc kv =>
      let kl := pyLower kv.1
      if containsSub kl "lens" then acc ++ [kv.1 ++ ": " ++ pyStr kv.2]
      else if containsSub kl "focal" && containsSub kl "length" then
        acc ++ ["Focal: " ++ pyStr kv.2]
      else if containsSub kl "aperture" then acc ++ ["Aperture: " ++ pyStr kv.2]
      else acc)
    []
  if lens_data ≠ [] then some (String.intercalate " | " lens_data) else none

/-- `OSINTEnhancer._create_osm_map` (src/core.py:238-266): draws a folium
map and saves it under a coordinate-hash-derived temp path; any failure
returns `None`. -/
def create_osm_map (env : Env) (metadata : Dict) : Option String :=
  match extract_coordinates env metadata with
  | none => none
  | some (lat, lon) =>
    match env.foliumSave (lat, lon) with
    | .error _ => none
    | .ok _ =>
      some (env.tempDir ++ "/metadate_map_" ++
        env.md5 (strBytes (env.fstr lat ++ env.fstr lon)) ++ ".html")

/-! ### The six OSINT analyses -/

/-- `OSINTEnhancer._gps_osint_analysis` (src/core.py:56-109).  Inside the
`try`, only the first `geolocator.reverse` call can raise (the
`rg.search` block swallows its own failures and `_analyze_location_type`
catches internally), so a raise there yields exactly
`OSINT_Coordinates` + `OSINT_GPS_Error`. -/
def gps_osint_analysis (env : Env) (metadata : Dict) : Dict :=
  match extract_coordinates env metadata with
  | none => []
  | some (lat, lon) =>
    let g := dictSet [] "OSINT_Coordinates"
      (.vStr (formatFixed lat 6 ++ ", " ++ formatFixed lon 6))
    match env.reverse1 (env.fstr lat ++ ", " ++ env.fstr lon) with
    | .error e => dictSet g "OSINT_GPS_Error" (.vStr e)
    | .ok oloc =>
      let g :=
        match oloc with
        | none => g
        | some loc =>
          let address := loc.address
          let g := dictSet g "OSINT_Country" (.vStr (address.country.getD "Unknown"))
          let g := dictSet g "OSINT_Country_Code"
            (.vStr (address.country_code.getD "Unknown"))
          let g := dictSet g "OSINT_State" (.vStr (address.state.getD "Unknown"))
          let g := dictSet g "OSINT_City"
            (.vStr (address.city.getD (address.town.getD "Unknown")))
          let g := dictSet g "OSINT_Postcode" (.vStr (address.postcode.getD "Unknown"))
          let g := dictSet g "OSINT_Road" (.vStr (address.road.getD "Unknown"))
          dictSet g "OSINT_Full_Address" (.vStr loc.fullAddress)
      let g :=
        match env.rgSearch (lat, lon) with
        | .error _ => g
        | .ok [] => g
        | .ok (r :: _) =>
          let g := dictSet g "OSINT_RG_Country" (.vStr (r.cc.getD "Unknown"))
          let g := dictSet g "OSINT_RG_City" (.vStr (r.name.getD "Unknown"))
          let g := dictSet g "OSINT_RG_Admin1" (.vStr (r.admin1.getD "Unknown"))
          dictSet g "OSINT_RG_Admin2" (.vStr (r.admin2.getD "Unknown"))
      let g := dictSet g "OSINT_Google_Maps"
        (.vStr ("https://maps.google.com/?q=" ++ env.fstr lat ++ "," ++ env.fstr lon ++ "&z=17"))
      let g := dictSet g "OSINT_OpenStreetMap"
        (.vStr ("https://www.openstreetmap.org/?mlat=" ++ env.fstr lat ++ "&mlon=" ++ env.fstr lon ++ "&zoom=17"))
      let g := dictSet g "OSINT_Bing_Maps"
        (.vStr ("https://bing.com/maps/default.aspx?cp=" ++ env.fstr lat ++ "~" ++ env.fstr lon ++ "&lvl=17"))
      let g := dictSet g "OSINT_Yandex_Maps"
        (.vStr ("https://yandex.ru/maps/?pt=" ++ env.fstr lon ++ "," ++ env.fstr lat ++ "&z=17"))
      let g := dictSet g "OSINT_What3Words"
        (.vStr ("https://what3words.com///" ++ coord_to_3words env lat lon))
      let g :=
        if containsSub (pyStrOfDict metadata) "GPS GPSAltitude" then
          dictSet g "OSINT_Altitude_Analysis" (.vStr "Altitude data available")
        else g
      dictSet g "OSINT_Location_Type" (analyze_location_type env lat lon)

/-- State of the make/model/serial scan (`None` initially; Python
truthiness also treats `""` as unset for the `not make` guards). -/
structure CamState where
  make : Option String := none
  model : Option String := none
  serial : Option String := none

/-- Truthiness of the scan state components. -/
def camTruthy : Option String → Bool
  | some s => s ≠ ""
  | none => false

/-- One step of the `_camera_osint_analysis` scan: an `elif` chain, so a
key is considered for at most one category per pass. -/
def camStep (st : CamState) (kv : String × Value) : CamState :=
  if containsSub (pyLower kv.1) "make" && !camTruthy st.make then
    { st with make := some (pyStr kv.2) }
  else if containsSub (pyLower kv.1) "model" && !camTruthy st.model then
    { st with model := some (pyStr kv.2) }
  else if containsSub (pyLower kv.1) "serial" && !camTruthy st.serial then
    { st with serial := some (pyStr kv.2) }
  else st

/-- The `if make: ... if make and model: ...` field-building tail of
`_camera_osint_analysis`, as a function of the scan state. -/
def camFields (env : Env) (st : CamState) : Dict :=
  let c : Dict := []
  let c := match st.make with
    | some m => if m ≠ "" then dictSet c "OSINT_Camera_Make" (.vStr m) else c
    | none => c
  let c := match st.model with
    | some m => if m ≠ "" then dictSet c "OSINT_Camera_Model" (.vStr m) else c
    | none => c
  let c := match st.serial with
    | some s =>
      if s ≠ "" then
        let c := dictSet c "OSINT_Camera_Serial" (.vStr s)
        let c := dictSet c "OSINT_Serial_Hash_MD5" (.vStr (env.md5 (strBytes s)))
        dictSet c "OSINT_Serial_Hash_SHA1" (.vStr (env.sha1 (strBytes s)))
      else c
    | none => c
  match st.make, st.model with
  | some mk, some mo =>
    if mk ≠ "" ∧ mo ≠ "" then
      let c := dictSet c "OSINT_Device_Fingerprint" (.vStr (mk ++ " " ++ mo))
      dictSet c "OSINT_Device_Search"
        (.vStr ("https://www.google.com/search?q=" ++ mk ++ "+" ++ mo ++ "+camera"))
    else c
  | _, _ => c

/-- The trailing lens-info attachment of `_camera_osint_analysis`. -/
def lensWrap (metadata : Dict) (c : Dict) : Dict :=
  match extract_lens_info metadata with
  | some li => dictSet c "OSINT_Lens_Info" (.vStr li)
  | none => c

/-- `OSINTEnhancer._camera_osint_analysis` (src/core.py:111-152).  The
analysis-level `except` is unreachable in the model (every step is total). -/
def camera_osint_analysis (env : Env) (metadata : Dict) : Dict :=
  lensWrap metadata (camFields env (metadata.foldl camStep {}))

/-- `OSINTEnhancer._time_analysis` (src/core.py:154-184). -/
def time_analysis (metadata : Dict) : Dict :=
  let timestamps := metadata.filter fun kv =>
    (["date", "time"].any fun t => containsSub (pyLower kv.1) t) &&
      (containsSub (pyStr kv.2) "202" || containsSub (pyStr kv.2) "201")
  let t : Dict := []
  let t :=
    if timestamps ≠ [] then
      let t := dictSet t "OSINT_Timestamps_Found" (.vInt timestamps.length)
      let t := (timestamps.take 5).enum.foldl
        (fun acc ikv =>
          dictSet acc ("OSINT_Time_" ++ toString (ikv.1 + 1))
            (.vStr (ikv.2.1 ++ ": " ++ pyStr ikv.2.2)))
        t
      if timestamps.length > 1 then
        dictSet t "OSINT_Time_Analysis" (.vStr "Multiple timestamps - timeline available")
      else t
    else t
  match metadata.find? (fun kv => containsSub (pyLower kv.1) "timezone") with
  | some kv => dictSet t "OSINT_Timezone" kv.2
  | none => t

/-- `OSINTEnhancer._forensic_analysis` (src/core.py:186-214).  A failing
`open`/`read` yields only the error field; a failing `os.stat` keeps the
hash fields computed before it and appends the error field. -/
def forensic_analysis (env : Env) (image_path : String) : Dict :=
  match env.readFile image_path with
  | .error e => dictSet [] "OSINT_Forensic_Error" (.vStr e)
  | .ok file_data =>
    let f := dictSet [] "OSINT_MD5_Hash" (.vStr (env.md5 file_data))
    let f := dictSet f "OSINT_SHA1_Hash" (.vStr (env.sha1 file_data))
    let f := dictSet f "OSINT_SHA256_Hash" (.vStr (env.sha256 file_data))
    match env.stat image_path with
    | .error e => dictSet f "OSINT_Forensic_Error" (.vStr e)
    | .ok st =>
      let f := dictSet f "OSINT_File_Size_Bytes" (.vInt st.size)
      let f := dictSet f "OSINT_File_Created" (.vStr (env.isoTime st.ctime))
      let f := dictSet f "OSINT_File_Modified" (.vStr (env.isoTime st.mtime))
      let filename := pyBasename image_path
      let f := dictSet f "OSINT_Filename_Analysis" (.vStr filename)
      if ["img", "dsc", "photo", "pic"].any
          (fun x => containsSub (pyLower filename) x) then
        dictSet f "OSINT_Filename_Pattern" (.vStr "Common camera naming pattern")
      else f

/-- `OSINTEnhancer._network_analysis` (src/core.py:216-236).  Both
indicator checks run for every key (two independent `if`s). -/
def network_analysis (metadata : Dict) : Dict :=
  metadata.foldl
    (fun acc kv =>
      let str_value := pyStr kv.2
      let acc :=
        if containsSub (pyLower str_value) "http" then
          dictSet acc ("OSINT_URL_In_" ++ kv.1) (.vStr str_value)
        else acc
      if containsSub str_value "@" && containsSub str_value "." then
        dictSet acc ("OSINT_Email_Like_In_" ++ kv.1) (.vStr str_value)
      else acc)
    []

/-- `OSINTEnhancer.enhance_metadata` (src/core.py:26-54).  Starts from a
copy of the base record and layers the six analyses with `dict.update`.
Each analysis catches its own exceptions, so the method-level `except`
(which would add `OSINT_Error`) is unreachable in the model. -/
def enhance_metadata (env : Env) (metadata : Dict) (image_path : String) : Dict :=
  let enhanced := dictUpdate metadata (gps_osint_analysis env metadata)
  let enhanced := dictUpdate enhanced (camera_osint_analysis env metadata)
  let enhanced := dictUpdate enhanced (time_analysis metadata)
  let enhanced := dictUpdate enhanced (forensic_analysis env image_path)
  let enhanced := dictUpdate enhanced (network_analysis metadata)
  match create_osm_map env metadata with
  | some map_path => dictSet enhanced "OSINT_Map_File" (.vStr map_path)
  | none => enhanced

/-! ### `UltraMetadataExtractor`: the ten extraction passes -/

/-- `UltraMetadataExtractor._get_file_info` (src/core.py:413-427).
`os.stat` is the first statement of the `try`; its failure yields `{}`. -/
def get_file_info (env : Env) (image_path : String) : Dict :=
  match env.stat image_path with
  | .error _ => []
  | .ok st =>
    let i := dictSet [] "File_Path" (.vStr (env.abspath image_path))
    let i := dictSet i "File_Name" (.vStr (pyBasename image_path))
    let i := dictSet i "File_Size_Bytes" (.vInt st.size)
    let i := dictSet i "File_Size_MB" (.vStr (formatFixed ((st.size : Rat) / (1024 * 1024)) 2))
    let i := dictSet i "File_Created" (.vStr (env.isoTime st.ctime))
    let i := dictSet i "File_Modified" (.vStr (env.isoTime st.mtime))
    dictSet i "File_Extension" (.vStr (pyLower (pyExt image_path)))

/-- `UltraMetadataExtractor._deep_exifread` (src/core.py:429-449). -/
def deep_exifread (env : Env) (image_path : String) : Dict :=
  match env.exifDebug image_path with
  | .error _ => []
  | .ok tags =>
    tags.foldl
      (fun md tkv =>
        if tkv.1 = "JPEGThumbnail" ∨ tkv.1 = "TIFFThumbnail" then md
        else
          match process_exif_value tkv.2.raw with
          | some pv =>
            if pv ≠ "" ∧ pyStrip pv ≠ "" then
              dictSet md ("EXIFDEEP_" ++ tkv.1) (.vStr pv)
            else md
          | none => md)
      []

/-- The `value in [None, "", b'', 0]` skip of the PIL EXIF walk. -/
def isEmptyPil : RawValue → Bool
  | .pyNone => true
  | .bytes [] => true
  | .scalar (.vStr "") => true
  | .scalar (.vInt 0) => true
  | _ => false

/-- `UltraMetadataExtractor._extended_pil_exif` (src/core.py:451-486). -/
def extended_pil_exif (env : Env) (image_path : String) : Dict :=
  match env.pilOpen image_path with
  | .error _ => []
  | .ok img =>
    let md := dictSet [] "PIL_Format" (.vStr img.format)
    let md := dictSet md "PIL_Mode" (.vStr img.mode)
    let md := dictSet md "PIL_Size" (.vStr (toString img.width ++ "x" ++ toString img.height))
    let md := dictSet md "PIL_Width" (.vInt img.width)
    let md := dictSet md "PIL_Height" (.vInt img.height)
    let md := dictSet md "PIL_Bands" (.vStr (pyReprTuple img.bands))
    let md :=
      match img.exifData with
      | none => md
      | some entries =>
        if entries = [] then md
        else
          entries.foldl
            (fun md nv =>
              if isEmptyPil nv.2 then md
              else
                match process_exif_value nv.2 with
                | some pv =>
                  if pv ≠ "" then dictSet md ("PILEXIF_" ++ nv.1) (.vStr pv) else md
                | none => md)
            md
    img.info.foldl
      (fun md kv =>
        if kv.1 ≠ "exif" ∧ kv.1 ≠ "icc_profile" then
          dictSet md ("PILINFO_" ++ kv.1) (.vStr kv.2)
        else md)
      md

/-- The `value in [None, "", b'', 0, []]` skip of the piexif walk. -/
def isEmptyPiexif : RawValue → Bool
  | .seq [] => true
  | rv => isEmptyPil rv

/-- `UltraMetadataExtractor._low_level_piexif` (src/core.py:488-515).  A
failing tag-name lookup is recorded as its own `PIEXIF_ERROR_` field. -/
def low_level_piexif (env : Env) (image_path : String) : Dict :=
  match env.piexifLoad image_path with
  | .error _ => []
  | .ok exif_dict =>
    ["0th", "Exif", "GPS", "1st", "Interop"].foldl
      (fun md ifd_name =>
        match exif_dict.find? (fun p => decide (p.1 = ifd_name)) with
        | none => md
        | some entry =>
          entry.2.foldl
            (fun md e =>
              match e.tagName with
              | .error err =>
                dictSet md ("PIEXIF_ERROR_" ++ ifd_name ++ "_" ++ toString e.tag)
                  (.vStr ("Tag error: " ++ err))
              | .ok tag_name =>
                if isEmptyPiexif e.value then md
                else
                  match process_exif_value e.value with
                  | some pv =>
                    if pv ≠ "" then
                      dictSet md ("PIEXIF_" ++ ifd_name ++ "_" ++ tag_name) (.vStr pv)
                    else md
                  | none => md)
            md)
      []

/-- Dict of exifread GPS tags (tag ↦ tag object), insertion-ordered. -/
abbrev GpsDict := List (String × IfdTag)

/-- Lookup in a `GpsDict` (`tag in gps_data` / `gps_data[tag]`). -/
def gpsGet (d : GpsDict) (k : String) : Option IfdTag :=
  (d.find? (fun kv => decide (kv.1 = k))).map (·.2)

/-- `UltraMetadataExtractor._detailed_gps` (src/core.py:517-584).  The
inner coordinate `try` cannot raise in the model (`_convert_gps_coord`
and the arithmetic are total), so no `GPS_Error` field is produced. -/
def detailed_gps (env : Env) (image_path : String) : Dict :=
  match env.exifPlain image_path with
  | .error _ => []
  | .ok tags =>
    let scan := tags.foldl
      (fun (acc : GpsDict × Dict) tkv =>
        if containsSub tkv.1 "GPS" then
          (acc.1 ++ [(tkv.1, tkv.2)],
           dictSet acc.2 ("GPS_RAW_" ++ tkv.1) (.vStr tkv.2.str))
        else acc)
      ([], [])
    let gps_data := scan.1
    let md := scan.2
    if gps_data.isEmpty then md
    else
      let md := dictSet md "GPS_Presence" (.vStr "YES")
      let md :=
        match gpsGet gps_data "GPS GPSLatitude", gpsGet gps_data "GPS GPSLongitude" with
        | some latTag, some lonTag =>
          let lat := convert_gps_coord some latTag.vals
          let lon := convert_gps_coord some lonTag.vals
          let step1 :=
            match gpsGet gps_data "GPS GPSLatitudeRef" with
            | some refTag =>
              let ref := pyUpper refTag.str
              (dictSet md "GPS_Lat_Ref" (.vStr ref), if ref = "S" then -lat else lat)
            | none => (md, lat)
          let md := step1.1
          let lat := step1.2
          let step2 :=
            match gpsGet gps_data "GPS GPSLongitudeRef" with
            | some refTag =>
              let ref := pyUpper refTag.str
              (dictSet md "GPS_Lon_Ref" (.vStr ref), if ref = "W" then -lon else lon)
            | none => (md, lon)
          let md := step2.1
          let lon := step2.2
          let md := dictSet md "GPS_Latitude_Decimal" (.vStr (formatFixed lat 8))
          let md := dictSet md "GPS_Longitude_Decimal" (.vStr (formatFixed lon 8))
          let md := dictSet md "GPS_Coordinates"
            (.vStr (formatFixed lat 6 ++ ", " ++ formatFixed lon 6))
          let md := dictSet md "GPS_Google_Maps"
            (.vStr ("https://maps.google.com/?q=" ++ env.fstr lat ++ "," ++ env.fstr lon))
          let md := dictSet md "GPS_OpenStreetMap"
            (.vStr ("https://www.openstreetmap.org/?mlat=" ++ env.fstr lat ++ "&mlon=" ++ env.fstr lon))
          let md := dictSet md "GPS_Latitude_DMS" (.vStr (decimal_to_dms lat true))
          dictSet md "GPS_Longitude_DMS" (.vStr (decimal_to_dms lon false))
        | _, _ => md
      [("GPS GPSAltitude", "Altitude"), ("GPS GPSTimeStamp", "TimeStamp"),
       ("GPS GPSDate", "Date"), ("GPS GPSProcessingMethod", "ProcessingMethod"),
       ("GPS GPSSpeed", "Speed"), ("GPS GPSTrack", "Track"),
       ("GPS GPSImgDirection", "ImageDirection")].foldl
        (fun md m =>
          match gpsGet gps_data m.1 with
          | some t => dictSet md ("GPS_" ++ m.2) (.vStr t.str)
          | none => md)
        md

/-- `UltraMetadataExtractor._extract_makernotes` (src/core.py:586-612). -/
def extract_makernotes (env : Env) (image_path : String) : Dict :=
  match env.exifDetails image_path with
  | .error _ => []
  | .ok tags =>
    let maker_tags := tags.filter fun tkv =>
      containsSub tkv.1 "MakerNote" || containsSub (pyLower tkv.1) "makernote"
    if !maker_tags.isEmpty then
      let md := dictSet [] "MakerNotes_Present" (.vStr "YES")
      let md := maker_tags.foldl
        (fun md tkv =>
          match process_exif_value tkv.2.raw with
          | some pv => if pv ≠ "" then dictSet md ("MAKER_" ++ tkv.1) (.vStr pv) else md
          | none => md)
        md
      dictSet md "MakerNotes_Count" (.vInt maker_tags.length)
    else
      dictSet [] "MakerNotes_Present" (.vStr "NO")

/-- `UltraMetadataExtractor._image_technical_specs` (src/core.py:614-648).
A zero height makes the aspect-ratio division raise; the pass-level
`except` then returns the five fields assigned before it. -/
def image_technical_specs (env : Env) (image_path : String) : Dict :=
  match env.pilOpen image_path with
  | .error _ => []
  | .ok img =>
    let md := dictSet [] "Technical_Format" (.vStr img.format)
    let md := dictSet md "Technical_Mode" (.vStr img.mode)
    let md := dictSet md "Technical_Size"
      (.vStr (toString img.width ++ "x" ++ toString img.height))
    let md := dictSet md "Technical_Width" (.vInt img.width)
    let md := dictSet md "Technical_Height" (.vInt img.height)
    if img.height = 0 then md
    else
      let md := dictSet md "Technical_Aspect_Ratio"
        (.vStr (formatFixed ((img.width : Rat) / (img.height : Rat)) 4))
      let md := dictSet md "Technical_Color_Bands" (.vStr (pyReprTuple img.bands))
      let md := dictSet md "Technical_Channels" (.vInt img.bands.length)
      if img.mode = "L" ∨ img.mode = "P" then
        dictSet md "Technical_Bit_Depth" (.vStr "8")
      else if img.mode = "I" ∨ img.mode = "F" then
        dictSet md "Technical_Bit_Depth" (.vStr "32")
      else if img.mode = "RGB" then dictSet md "Technical_Bit_Depth" (.vStr "24")
      else if img.mode = "RGBA" then dictSet md "Technical_Bit_Depth" (.vStr "32")
      else md

/-- `UltraMetadataExtractor._color_analysis` (src/core.py:650-674). -/
def color_analysis (env : Env) (image_path : String) : Dict :=
  match env.pilOpen image_path with
  | .error _ => []
  | .ok img =>
    match img.icc with
    | none => dictSet [] "Color_ICC_Present" (.vStr "NO")
    | some icc_data =>
      let md := dictSet [] "Color_ICC_Present" (.vStr "YES")
      let md := dictSet md "Color_ICC_Size_Bytes" (.vInt icc_data.length)
      match env.iccParse icc_data with
      | .ok prof =>
        let md := dictSet md "Color_ICC_Description" (.vStr prof.description)
        let md := dictSet md "Color_ICC_Manufacturer" (.vStr prof.manufacturer)
        let md := dictSet md "Color_ICC_Model" (.vStr prof.model)
        dictSet md "Color_ICC_Copyright" (.vStr prof.copyright)
      | .error e => dictSet md "Color_ICC_Error" (.vStr ("Profile parsing: " ++ e))

/-- `UltraMetadataExtractor._xmp_iptc_data` (src/core.py:676-719). -/
def xmp_iptc_data (env : Env) (image_path : String) : Dict :=
  match env.readFile image_path with
  | .error _ => []
  | .ok raw =>
    let xmp_start :=
      match bytesFind raw (strBytes "<x:xmpmeta") 0 with
      | some i => some i
      | none => bytesFind raw (strBytes "<xpacket") 0
    let md :=
      match xmp_start with
      | some st =>
        let end_tag :=
          match bytesFind raw (strBytes "</x:xmpmeta>") st with
          | some e => some e
          | none => bytesFind raw (strBytes "</xpacket>") st
        let end_index := match end_tag with | some e => e + 12 | none => st + 20000
        let xmp_raw := (raw.drop st).take (end_index - st)
        let md := dictSet [] "XMP_Raw" (.vStr (decodeStr xmp_raw))
        dictSet md "XMP_Present" (.vStr "YES")
      | none => dictSet [] "XMP_Present" (.vStr "NO")
    if (bytesFind raw (strBytes "Photoshop 3.0") 0).isSome ||
        (bytesFind raw (strBytes "IPTC") 0).isSome ||
        (bytesFind raw (strBytes "8BIM") 0).isSome then
      let md := dictSet md "IPTC_Present" (.vStr "YES")
      dictSet md "IPTC_Sample" (.vStr (decodeStr (raw.take 4000)))
    else
      dictSet md "IPTC_Present" (.vStr "NO")

/-- `UltraMetadataExtractor._raw_specific_data` (src/core.py:721-742). -/
def raw_specific_data (image_path : String) : Dict :=
  let file_ext := pyLower (pyExt image_path)
  let raw_formats := [(".cr2", "Canon RAW"), (".nef", "Nikon RAW"),
    (".arw", "Sony RAW"), (".dng", "Digital Negative"),
    (".orf", "Olympus RAW"), (".rw2", "Panasonic RAW")]
  match (raw_formats.find? (fun p => decide (p.1 = file_ext))).map (·.2) with
  | some label =>
    dictSet (dictSet [] "RAW_Format" (.vStr label)) "RAW_File" (.vStr "YES")
  | none => dictSet [] "RAW_File" (.vStr "NO")

/-- `UltraMetadataExtractor.extract_metadata` (src/core.py:352-394).  The
ten passes each contain their own failures, so the method-level `except`
(returning `{"Error": ...}`) is unreachable in the model and the result is
always the merge of the passes' contributions. -/
def extract_metadata (env : Env) (image_path : String) : Dict :=
  let md := dictUpdate [] (get_file_info env image_path)
  let md := dictUpdate md (deep_exifread env image_path)
  let md := dictUpdate md (extended_pil_exif env image_path)
  let md := dictUpdate md (low_level_piexif env image_path)
  let md := dictUpdate md (detailed_gps env image_path)
  let md := dictUpdate md (extract_makernotes env image_path)
  let md := dictUpdate md (image_technical_specs env image_path)
  let md := dictUpdate md (color_analysis env image_path)
  let md := dictUpdate md (xmp_iptc_data env image_path)
  dictUpdate md (raw_specific_data image_path)

/-! ### The GUI category classifier (src/gui.py:119-144) -/

/-- `any(x in key_lower for x in markers)`. -/
def matchesAny (key_lower : String) (markers : List String) : Bool :=
  markers.any fun x => containsSub key_lower x

/-- The key-classification chain of `MetadataTree.show_metadata`
(src/gui.py:119-144) as a function of the lowered key (`key_lower`). -/
def classifyKeyLower (key_lower : String) : String :=
  if matchesAny key_lower ["file_", "name", "size", "path", "extension"] then
    "File Information"
  else if matchesAny key_lower ["make", "model", "lens", "serial", "camera", "manufacturer"] then
    "Camera & Lens"
  else if matchesAny key_lower ["exposure", "aperture", "iso", "focal", "shutter", "white", "flash", "metering"] then
    "Capture Settings"
  else if containsSub key_lower "gps" then "GPS & Location"
  else if matchesAny key_lower ["date", "time"] then "Date & Time"
  else if matchesAny key_lower ["width", "height", "mode", "format", "size", "technical", "image_"] then
    "Image Properties"
  else if matchesAny key_lower ["color", "icc", "profile"] then "Color & Profiles"
  else if containsSub key_lower "raw" then "RAW Information"
  else if containsSub key_lower "osint" then "OSINT Intelligence"
  else if containsSub key_lower "exif" then "EXIF Data"
  else "Other Metadata"

/-- Display category of one key (`key_lower = key.lower()`). -/
def classifyKey (key : String) : String := classifyKeyLower (pyLower key)

/-! ### Generic dictionary lemmas -/

theorem dictGet_nil (k : String) : dictGet [] k = none := rfl

theorem dictGet_cons (x : String × Value) (l : Dict) (k : String) :
    dictGet (x :: l) k = if x.1 = k then some x.2 else dictGet l k := by
  unfold dictGet
  by_cases h : x.1 = k
  · rw [List.find?_cons_of_pos _ (by simp [h])]
    simp [h]
  · rw [List.find?_cons_of_neg _ (by simp [h])]
    simp [h]

theorem dictGet_dictSet_self (d : Dict) (k : String) (v : Value) :
    dictGet (dictSet d k v) k = some v := by
  induction d with
  | nil => simp [dictSet, dictGet_cons]
  | cons kv rest ih =>
    by_cases h : kv.1 = k
    · simp [dictSet, if_pos h, dictGet_cons]
    · simp only [dictSet, if_neg h, dictGet_cons, if_neg h]
      exact ih

theorem dictGet_dictSet_ne (d : Dict) (k : String) (v : Value) (k' : String)
    (h : k' ≠ k) : dictGet (dictSet d k v) k' = dictGet d k' := by
  induction d with
  | nil => simp [dictSet, dictGet_cons, Ne.symm h]
  | cons kv rest ih =>
    by_cases hk : kv.1 = k
    · simp only [dictSet, if_pos hk, dictGet_cons, if_neg (Ne.symm h)]
      have hne : kv.1 ≠ k' := by rw [hk]; exact Ne.symm h
      rw [if_neg hne]
    · simp only [dictSet, if_neg hk, dictGet_cons]
      by_cases hk' : kv.1 = k'
      · simp [hk']
      · simp only [if_neg hk']
        exact ih

theorem mem_dictSet (d : Dict) (k : String) (v : Value) :
    ∀ kv ∈ dictSet d k v, kv ∈ d ∨ kv.1 = k := by
  induction d with
  | nil =>
    intro kv hkv
    simp only [dictSet, List.mem_singleton] at hkv
    subst hkv
    right; rfl
  | cons hd rest ih =>
    intro kv hkv
    by_cases h : hd.1 = k
    · simp only [dictSet, if_pos h] at hkv
      rcases List.mem_cons.mp hkv with rfl | hkv
      · right; rfl
      · left; exact List.mem_cons_of_mem _ hkv
    · simp only [dictSet, if_neg h] at hkv
      rcases List.mem_cons.mp hkv with rfl | hkv
      · left; exact List.mem_cons_self _ _
      · rcases ih kv hkv with hm | hkk
        · left; exact List.mem_cons_of_mem _ hm
        · right; exact hkk

/-- Key-property preservation through `dictSet`. -/
theorem dictSet_key_pred {P : String → Prop} {d : Dict} {k : String} {v : Value}
    (hd : ∀ kv ∈ d, P kv.1) (hk : P k) : ∀ kv ∈ dictSet d k v, P kv.1 := by
  intro kv hkv
  rcases mem_dictSet d k v kv hkv with hm | he
  · exact hd kv hm
  · rw [he]; exact hk

/-- Key-property preservation through a dictionary-building fold. -/
theorem foldl_key_pred {β : Type} {P : String → Prop} {step : Dict → β → Dict}
    (hstep : ∀ d x, (∀ kv ∈ d, P kv.1) → ∀ kv ∈ step d x, P kv.1) :
    ∀ (l : List β) (init : Dict), (∀ kv ∈ init, P kv.1) →
      ∀ kv ∈ l.foldl step init, P kv.1 := by
  intro l
  induction l with
  | nil => intro init h kv hkv; exact h kv hkv
  | cons x xs ih => intro init h kv hkv; exact ih _ (hstep _ _ h) kv hkv

/-- `dict.update` with keys all different from `k` does not affect `d[k]`. -/
theorem dictGet_dictUpdate_ne (e : List (String × Value)) :
    ∀ (d : Dict) (k : String), (∀ kv ∈ e, kv.1 ≠ k) →
      dictGet (dictUpdate d e) k = dictGet d k := by
  induction e with
  | nil => intro d k _; rfl
  | cons kv rest ih =>
    intro d k h
    have h1 : kv.1 ≠ k := h kv (List.mem_cons_self _ _)
    have h2 : ∀ kv' ∈ rest, kv'.1 ≠ k := fun kv' hm => h kv' (List.mem_cons_of_mem _ hm)
    show dictGet (dictUpdate (dictSet d kv.1 kv.2) rest) k = dictGet d k
    rw [ih _ _ h2, dictGet_dictSet_ne _ _ _ _ (Ne.symm h1)]

/-- Prefix test facts used to separate key namespaces. -/
theorem chPre_append (l r : List Char) : chPre l (l ++ r) = true := by
  induction l with
  | nil => rfl
  | cons c t ih => simp [chPre, ih]

theorem strStarts_append (p t : String) : strStarts p (p ++ t) = true := by
  show chPre p.data (p ++ t).data = true
  have : (p ++ t).data = p.data ++ t.data := rfl
  rw [this]; exact chPre_append _ _

theorem ne_of_starts_of_not_starts {p k q : String}
    (hk : strStarts p k = true) (hq : strStarts p q = false) : k ≠ q := by
  intro he; subst he; rw [hk] at hq; cases hq

/-! ### Claim C9: the category classifier -/

/-- The eleven display categories (src/gui.py:105-117). -/
def categoryNames : List String :=
  ["File Information", "Camera & Lens", "Capture Settings", "GPS & Location",
   "Date & Time", "Image Properties", "Color & Profiles", "EXIF Data",
   "RAW Information", "OSINT Intelligence", "Other Metadata"]

/-- Spec-side definition (the spec's "ordered substring-match priority"
rule table): the first rule whose marker list matches the lowered key wins,
with `"Other Metadata"` as the fallback. -/
def categoryRules : List (List String × String) :=
  [(["file_", "name", "size", "path", "extension"], "File Information"),
   (["make", "model", "lens", "serial", "camera", "manufacturer"], "Camera & Lens"),
   (["exposure", "aperture", "iso", "focal", "shutter", "white", "flash", "metering"],
    "Capture Settings"),
   (["gps"], "GPS & Location"),
   (["date", "time"], "Date & Time"),
   (["width", "height", "mode", "format", "size", "technical", "image_"],
    "Image Properties"),
   (["color", "icc", "profile"], "Color & Profiles"),
   (["raw"], "RAW Information"),
   (["osint"], "OSINT Intelligence"),
   (["exif"], "EXIF Data")]

/-- First rule of the table whose marker list matches; `"Other Metadata"`
when none does. -/
def firstRule (kl : String) : List (List String × String) → String
  | [] => "Other Metadata"
  | r :: rest => if matchesAny kl r.1 then r.2 else firstRule kl rest

/-- Spec-side classifier: first matching rule in the fixed priority order. -/
def classifySpec (key : String) : String := firstRule (pyLower key) categoryRules

/-- C9: For every record, the category classifier assigns each key to
exactly one of eleven named categories, choosing the first matching
category in the fixed priority order: file-info markers, camera/lens
markers, capture-setting markers, the literal substring `gps`, date/time
markers, image-property markers, color/profile markers, the literal
substring `raw`, the literal substring `osint`, the literal substring
`exif`, else `other` (all matches case-insensitive on the key). -/
theorem classifyKey_spec (key : String) :
    classifyKey key = classifySpec key ∧ classifyKey key ∈ categoryNames := by
  constructor
  · show classifyKeyLower (pyLower key) = firstRule (pyLower key) categoryRules
    generalize pyLower key = kl
    simp only [classifyKeyLower, firstRule, categoryRules, matchesAny,
      List.any_cons, List.any_nil, Bool.or_false]
  · show classifyKeyLower (pyLower key) ∈ categoryNames
    generalize pyLower key = kl
    unfold classifyKeyLower
    split_ifs <;> decide

/-- C9 witness: the theorem applied at a concrete key. -/
theorem classifyKey_spec_witness :
    classifyKey "GPS_Latitude_Decimal" = classifySpec "GPS_Latitude_Decimal" ∧
      classifyKey "GPS_Latitude_Decimal" ∈ categoryNames :=
  classifyKey_spec "GPS_Latitude_Decimal"

/-! ### Claim C7: binary placeholder for null/space byte strings -/

/-- ASCII bytes decode to themselves under the permissive decoder. -/
theorem decodeUtf8Aux_ascii :
    ∀ (bs : List Nat) (fuel : Nat), (∀ b ∈ bs, b < 128) → bs.length ≤ fuel →
      decodeUtf8Aux fuel bs = bs.map Char.ofNat := by
  intro bs
  induction bs with
  | nil => intro fuel _ _; cases fuel <;> rfl
  | cons b rest ih =>
    intro fuel h hlen
    cases fuel with
    | zero => simp at hlen
    | succ f =>
      have hb : b < 128 := h b (List.mem_cons_self _ _)
      show (if b < 0x80 then Char.ofNat b :: decodeUtf8Aux f rest else _) = _
      rw [if_pos hb, ih f (fun x hx => h x (List.mem_cons_of_mem _ hx))
        (by simpa using hlen)]
      rfl

/-- Membership survives `dropWhile`. -/
theorem mem_of_mem_dropWhileP {α : Type} {p : α → Bool} :
    ∀ {l : List α} {a : α}, a ∈ l.dropWhile p → a ∈ l := by
  intro l
  induction l with
  | nil => intro a h; exact absurd h (List.not_mem_nil a)
  | cons x xs ih =>
    intro a h
    by_cases hx : p x
    · rw [List.dropWhile_cons_of_pos hx] at h
      exact List.mem_cons_of_mem _ (ih h)
    · rw [List.dropWhile_cons_of_neg hx] at h
      exact h

/-- Membership survives Python `strip`. -/
theorem mem_of_mem_pyStripL {cs : List Char} {c : Char} (h : c ∈ pyStripL cs) :
    c ∈ cs := by
  unfold pyStripL at h
  rw [List.mem_reverse] at h
  have h2 := mem_of_mem_dropWhileP h
  rw [List.mem_reverse] at h2
  exact mem_of_mem_dropWhileP h2

/-- C7: For every byte sequence B consisting only of null bytes and spaces,
value normalization (`_process_exif_value`) returns the placeholder string
`"binary_data_{len(B)}_bytes"`, where `len(B)` is the length of the
original byte sequence (not of the decoded text). -/
theorem process_exif_value_null_space (B : List Nat)
    (h : ∀ b ∈ B, b = 0 ∨ b = 32) :
    process_exif_value (.bytes B) =
      some ("binary_data_" ++ toString B.length ++ "_bytes") := by
  have hlow : ∀ b ∈ B, b < 128 := by
    intro b hb; rcases h b hb with rfl | rfl <;> norm_num
  have hdec : (decodeStr B).data = B.map Char.ofNat := by
    unfold decodeStr
    exact decodeUtf8Aux_ascii B B.length hlow le_rfl
  have hall : ((pyStrip (decodeStr B)).data.all
      fun c => c == '\x00' || c == ' ') = true := by
    rw [List.all_eq_true]
    intro c hc
    have hc2 : c ∈ (decodeStr B).data := mem_of_mem_pyStripL hc
    rw [hdec, List.mem_map] at hc2
    obtain ⟨b, hb, rfl⟩ := hc2
    rcases h b hb with rfl | rfl <;> decide
  show (if pyStrip (decodeStr B) ≠ "" ∧
      ¬((pyStrip (decodeStr B)).data.all fun c => c == '\x00' || c == ' ') = true
      then some (pyStrip (decodeStr B))
      else some ("binary_data_" ++ toString B.length ++ "_bytes")) =
    some ("binary_data_" ++ toString B.length ++ "_bytes")
  rw [if_neg]
  intro hcond
  exact hcond.2 hall

/-- C7 witness: the theorem applied at the byte string `b"\x00 \x00"`. -/
theorem process_exif_value_null_space_witness :
    process_exif_value (.bytes [0, 32, 0]) = some "binary_data_3_bytes" :=
  process_exif_value_null_space [0, 32, 0] (by decide)

/-! ### Claim C6: DMS-to-decimal conversion -/

/-- C6: For every input to the DMS-to-decimal conversion: a triple
`(d, m, s)` yields `d + m/60 + s/3600` (the source uses the first three
elements of any longer sequence too); a pair `(d, m)` yields `d + m/60`;
a singleton yields its value; an empty input yields `0.0`; and any
exception during conversion (a failing `float(·)`, modelled by `toF`
returning `none`) yields `0.0` rather than propagating. -/
theorem convert_gps_coord_spec {α : Type} (toF : α → Option Rat) :
    (∀ a b c rest d m s, toF a = some d → toF b = some m → toF c = some s →
      convert_gps_coord toF (a :: b :: c :: rest) = d + m / 60 + s / 3600) ∧
    (∀ a b d m, toF a = some d → toF b = some m →
      convert_gps_coord toF [a, b] = d + m / 60) ∧
    (∀ a q, toF a = some q → convert_gps_coord toF [a] = q) ∧
    convert_gps_coord toF ([] : List α) = 0 ∧
    (∀ a b c rest, (toF a = none ∨ toF b = none ∨ toF c = none) →
      convert_gps_coord toF (a :: b :: c :: rest) = 0) ∧
    (∀ a b, (toF a = none ∨ toF b = none) → convert_gps_coord toF [a, b] = 0) ∧
    (∀ a, toF a = none → convert_gps_coord toF [a] = 0) := by
  refine ⟨?_, ?_, ?_, rfl, ?_, ?_, ?_⟩
  · intro a b c rest d m s ha hb hc
    simp [convert_gps_coord, ha, hb, hc]
  · intro a b d m ha hb
    simp [convert_gps_coord, ha, hb]
  · intro a q ha
    simp [convert_gps_coord, ha]
  · intro a b c rest hor
    rcases hor with ha | hb | hc
    · cases hb : toF b <;> cases hc : toF c <;> simp [convert_gps_coord, ha, hb, hc]
    · cases ha : toF a <;> cases hc : toF c <;> simp [convert_gps_coord, ha, hb, hc]
    · cases ha : toF a <;> cases hb : toF b <;> simp [convert_gps_coord, ha, hb, hc]
  · intro a b hor
    rcases hor with ha | hb
    · cases hb : toF b <;> simp [convert_gps_coord, ha, hb]
    · cases ha : toF a <;> simp [convert_gps_coord, ha, hb]
  · intro a ha
    simp [convert_gps_coord, ha]

/-- C6 witness: the theorem applied at concrete inputs, covering each case. -/
theorem convert_gps_coord_spec_witness :
    convert_gps_coord some [(40 : Rat), 26, 46.8] = 40 + 26 / 60 + 46.8 / 3600 ∧
    convert_gps_coord some [(12 : Rat), 30] = 12 + 30 / 60 ∧
    convert_gps_coord some [(7 : Rat)] = 7 ∧
    convert_gps_coord some ([] : List Rat) = 0 ∧
    convert_gps_coord (fun _ : Rat => (none : Option Rat)) [1, 2, 3] = 0 :=
  ⟨(convert_gps_coord_spec some).1 40 26 46.8 [] 40 26 46.8 rfl rfl rfl,
   (convert_gps_coord_spec some).2.1 12 30 12 30 rfl rfl,
   (convert_gps_coord_spec some).2.2.1 7 7 rfl,
   (convert_gps_coord_spec some).2.2.2.1,
   (convert_gps_coord_spec (fun _ : Rat => none)).2.2.2.2.1 1 2 3 [] (Or.inl rfl)⟩

/-! ### Concrete environments for scenarios, counterexamples and witnesses -/

/-- A baseline environment: every fallible collaborator raises, renders are
trivial, `float(str)` parses plain decimals. -/
def trivEnv : Env where
  stat := fun _ => .error "stat failed"
  abspath := fun p => "/abs/" ++ p
  isoTime := fun _ => "1970-01-01T00:00:00"
  readFile := fun _ => .error "read failed"
  exifDebug := fun _ => .error "exifread failed"
  exifPlain := fun _ => .error "exifread failed"
  exifDetails := fun _ => .error "exifread failed"
  pilOpen := fun _ => .error "pil failed"
  piexifLoad := fun _ => .error "piexif failed"
  iccParse := fun _ => .error "icc failed"
  reverse1 := fun _ => .error "geo failed"
  reverse2 := fun _ => .error "geo failed"
  rgSearch := fun _ => .error "rg failed"
  md5 := fun _ => "d41d8cd9"
  sha1 := fun _ => "da39a3ee"
  sha256 := fun _ => "e3b0c442"
  foliumSave := fun _ => .error "folium failed"
  tempDir := "/tmp"
  fstr := fun _ => ""
  parseFloat := parseDec

/-! ### Claim C4: the detailed-GPS scenario -/

/-- The exifread tags of a JPEG carrying
latitude 40°26'46.8" N and longitude 79°58'56.3" W. -/
def gpsTagsC4 : List (String × IfdTag) :=
  [("GPS GPSLatitude",
    ⟨.withValues (some "[40, 26, 234/5]") "[40, 26, 234/5]",
     [40, 26, 46.8], "[40, 26, 234/5]"⟩),
   ("GPS GPSLatitudeRef", ⟨.scalar (.vStr "N"), [], "N"⟩),
   ("GPS GPSLongitude",
    ⟨.withValues (some "[79, 58, 563/10]") "[79, 58, 563/10]",
     [79, 58, 56.3], "[79, 58, 563/10]"⟩),
   ("GPS GPSLongitudeRef", ⟨.scalar (.vStr "W"), [], "W"⟩)]

/-- Environment serving those GPS tags; `f` is the `str(float)` oracle. -/
def envC4 (f : Rat → String) : Env :=
  { trivEnv with exifPlain := fun _ => .ok gpsTagsC4, fstr := f }

/-- C4: For an image whose GPS tags encode latitude 40°, 26', 46.8" with
reference N and longitude 79°, 58', 56.3" with reference W, the detailed
GPS pass emits `GPS_Latitude_Decimal = "40.44633333"` and
`GPS_Longitude_Decimal = "-79.98230556"` (sign flipped by the W
reference), and a `GPS_Google_Maps` URL containing both decimal
coordinate values (rendered through the `str(float)` collaborator `f`,
which the source interpolates into the URL template). -/
theorem detailed_gps_scenario (f : Rat → String) :
    dictGet (detailed_gps (envC4 f) "photo.jpg") "GPS_Latitude_Decimal" =
      some (.vStr "40.44633333") ∧
    dictGet (detailed_gps (envC4 f) "photo.jpg") "GPS_Longitude_Decimal" =
      some (.vStr "-79.98230556") ∧
    dictGet (detailed_gps (envC4 f) "photo.jpg") "GPS_Google_Maps" =
      some (.vStr ("https://maps.google.com/?q=" ++
        f ((40 : Rat) + 26 / 60 + 46.8 / 3600) ++ "," ++
        f (-((79 : Rat) + 58 / 60 + 56.3 / 3600)))) := by
  refine ⟨?_, ?_, ?_⟩ <;> with_unfolding_all rfl

/-- C4 witness: the scenario theorem applied at a concrete renderer. -/
theorem detailed_gps_scenario_witness :
    dictGet (detailed_gps (envC4 fun _ => "q") "photo.jpg") "GPS_Latitude_Decimal" =
      some (.vStr "40.44633333") ∧
    dictGet (detailed_gps (envC4 fun _ => "q") "photo.jpg") "GPS_Longitude_Decimal" =
      some (.vStr "-79.98230556") :=
  ⟨(detailed_gps_scenario fun _ => "q").1, (detailed_gps_scenario fun _ => "q").2.1⟩

/-! ### Claim C8: location-type classification -/

/-- The labels the claim allows under `OSINT_Location_Type`. -/
def locationTypeLabels : List String :=
  ["Airport/Transport", "Tourist location", "Historic site", "Leisure area",
   "Water area", "Urban/Residential", "Unknown"]

/-- C8 (amended): the location-type classification yields one of the six
address-derived labels, `"Unknown"` on an exception — or Python `None`
(stored verbatim under `OSINT_Location_Type`) when the reverse-geocode
returns no location, a case the original claim does not allow. -/
theorem analyze_location_type_range (env : Env) (lat lon : Rat) :
    analyze_location_type env lat lon = Value.vNone ∨
      analyze_location_type env lat lon ∈ locationTypeLabels.map Value.vStr := by
  unfold analyze_location_type
  cases h : env.reverse2 (env.fstr lat ++ ", " ++ env.fstr lon) with
  | error e => right; simp [locationTypeLabels]
  | ok oloc =>
    cases oloc with
    | none => left; rfl
    | some loc =>
      right
      dsimp only
      split_ifs <;> simp [locationTypeLabels]

/-- C8 witness: the range theorem applied at a concrete environment. -/
theorem analyze_location_type_range_witness :
    analyze_location_type trivEnv 0 0 = Value.vNone ∨
      analyze_location_type trivEnv 0 0 ∈ locationTypeLabels.map Value.vStr :=
  analyze_location_type_range trivEnv 0 0

/-- Environment whose reverse geocoders return no location (no exception). -/
def envC8 : Env :=
  { trivEnv with reverse1 := fun _ => .ok none, reverse2 := fun _ => .ok none }

/-- A record resolving to coordinates (1, 2). -/
def mdC8 : Dict :=
  [("gps decimal latitude", .vStr "1"), ("gps decimal longitude", .vStr "2")]

/-- C8 counterexample: when the geocoder returns no location (an ordinary
`None` result, not an exception), the GPS analysis stores Python `None`
under `OSINT_Location_Type` — not one of the six labels and not
`"Unknown"`, contradicting the claim as stated. -/
theorem location_type_counterexample :
    dictGet (gps_osint_analysis envC8 mdC8) "OSINT_Location_Type" =
      some Value.vNone ∧
    Value.vNone ∉ locationTypeLabels.map Value.vStr := by
  constructor
  · with_unfolding_all rfl
  · decide

/-! ### Claim C5: camera make/model/serial discovery -/

/-- `marker in key.lower()`. -/
def keyHas (k m : String) : Bool := containsSub (pyLower k) m

/-- The stringified value of the first key containing `m` (case-insensitive). -/
def firstKeyWith (metadata : Dict) (m : String) : Option String :=
  (metadata.find? (fun kv => keyHas kv.1 m)).map (fun kv => pyStr kv.2)

theorem firstKeyWith_cons_pos {kv : String × Value} {rest : Dict} {m : String}
    (h : keyHas kv.1 m = true) :
    firstKeyWith (kv :: rest) m = some (pyStr kv.2) := by
  unfold firstKeyWith
  rw [List.find?_cons_of_pos rest
    (show (fun x : String × Value => keyHas x.1 m) kv = true from h)]
  rfl

theorem firstKeyWith_cons_neg {kv : String × Value} {rest : Dict} {m : String}
    (h : ¬keyHas kv.1 m = true) :
    firstKeyWith (kv :: rest) m = firstKeyWith rest m := by
  unfold firstKeyWith
  rw [List.find?_cons_of_neg rest
    (show ¬(fun x : String × Value => keyHas x.1 m) kv = true from h)]

/-- The scan's `make` component: the first key containing `make` wins (no
separation hypotheses needed — the other branches never write `make`). -/
theorem camFold_make :
    ∀ (md : Dict), (∀ kv ∈ md, pyStr kv.2 ≠ "") →
      ∀ st : CamState, (st.make = none ∨ camTruthy st.make = true) →
        (md.foldl camStep st).make =
          (match st.make with
           | some m => some m
           | none => firstKeyWith md "make") := by
  intro md
  induction md with
  | nil =>
    intro _ st _
    cases hm : st.make <;> simp [firstKeyWith, hm]
  | cons kv rest ih =>
    intro hne st hst
    have hner : ∀ kv' ∈ rest, pyStr kv'.2 ≠ "" :=
      fun kv' h => hne kv' (List.mem_cons_of_mem _ h)
    rw [List.foldl_cons]
    by_cases hmk : keyHas kv.1 "make" = true
    · rcases hst with hnone | htr
      · have hcond : (containsSub (pyLower kv.1) "make" && !camTruthy st.make) = true := by
          simp only [keyHas] at hmk
          simp [hmk, hnone, camTruthy]
        have hstep : camStep st kv = { st with make := some (pyStr kv.2) } := by
          unfold camStep
          rw [if_pos hcond]
        rw [hstep]
        rw [ih hner _ (Or.inr (by
          simp [camTruthy, hne kv (List.mem_cons_self _ _)]))]
        rw [hnone]
        dsimp only
        rw [firstKeyWith_cons_pos hmk]
      · have hm : (camStep st kv).make = st.make := by
          unfold camStep
          rw [if_neg (by simp [htr])]
          split_ifs <;> rfl
        rw [ih hner _ (by rw [hm]; exact Or.inr htr), hm]
        rcases hmm : st.make with _ | m
        · rw [hmm] at htr; simp [camTruthy] at htr
        · rfl
    · have hm : (camStep st kv).make = st.make := by
        unfold camStep
        rw [if_neg (by simp only [keyHas] at hmk; simp [hmk])]
        split_ifs <;> rfl
      rw [ih hner _ (by rw [hm]; exact hst), hm]
      cases hmm : st.make with
      | some m => rfl
      | none => rw [firstKeyWith_cons_neg hmk]

/-- The scan's `model` component: first `model` key wins, provided no key
carries both the `make` and `model` markers (otherwise the `elif` chain
diverts it — the content of the C5 correction). -/
theorem camFold_model :
    ∀ (md : Dict),
      (∀ kv ∈ md, (keyHas kv.1 "make" && keyHas kv.1 "model") = false) →
      (∀ kv ∈ md, pyStr kv.2 ≠ "") →
      ∀ st : CamState, (st.model = none ∨ camTruthy st.model = true) →
        (md.foldl camStep st).model =
          (match st.model with
           | some m => some m
           | none => firstKeyWith md "model") := by
  intro md
  induction md with
  | nil =>
    intro _ _ st _
    cases hm : st.model <;> simp [firstKeyWith, hm]
  | cons kv rest ih =>
    intro hsep hne st hst
    have hsepr : ∀ kv' ∈ rest, (keyHas kv'.1 "make" && keyHas kv'.1 "model") = false :=
      fun kv' h => hsep kv' (List.mem_cons_of_mem _ h)
    have hner : ∀ kv' ∈ rest, pyStr kv'.2 ≠ "" :=
      fun kv' h => hne kv' (List.mem_cons_of_mem _ h)
    rw [List.foldl_cons]
    by_cases hmo : keyHas kv.1 "model" = true
    · have hmk : keyHas kv.1 "make" = false := by
        have := hsep kv (List.mem_cons_self _ _)
        rcases Bool.eq_false_or_eq_true (keyHas kv.1 "make") with h | h
        · rw [h, hmo] at this; simp at this
        · exact h
      rcases hst with hnone | htr
      · have hstep : camStep st kv = { st with model := some (pyStr kv.2) } := by
          unfold camStep
          rw [if_neg (by simp only [keyHas] at hmk; simp [hmk])]
          rw [if_pos (by
            simp only [keyHas] at hmo
            simp [hmo, hnone, camTruthy])]
        rw [hstep]
        rw [ih hsepr hner _ (Or.inr (by
          simp [camTruthy, hne kv (List.mem_cons_self _ _)]))]
        rw [hnone]
        dsimp only
        rw [firstKeyWith_cons_pos hmo]
      · have hm : (camStep st kv).model = st.model := by
          unfold camStep
          split_ifs with h1 h2 h3 <;> try rfl
          rw [htr] at h2
          simp at h2
        rw [ih hsepr hner _ (by rw [hm]; exact Or.inr htr), hm]
        rcases hmm : st.model with _ | m
        · rw [hmm] at htr; simp [camTruthy] at htr
        · rfl
    · have hm : (camStep st kv).model = st.model := by
        unfold camStep
        split_ifs with h1 h2 h3 <;> try rfl
        simp only [keyHas] at hmo
        simp [hmo] at h2
      rw [ih hsepr hner _ (by rw [hm]; exact hst), hm]
      cases hmm : st.model with
      | some m => rfl
      | none => rw [firstKeyWith_cons_neg hmo]

/-- The scan's `serial` component: first `serial` key wins, provided no key
mixes the `serial` marker with `make` or `model`. -/
theorem camFold_serial :
    ∀ (md : Dict),
      (∀ kv ∈ md, (keyHas kv.1 "make" && keyHas kv.1 "serial") = false) →
      (∀ kv ∈ md, (keyHas kv.1 "model" && keyHas kv.1 "serial") = false) →
      (∀ kv ∈ md, pyStr kv.2 ≠ "") →
      ∀ st : CamState, (st.serial = none ∨ camTruthy st.serial = true) →
        (md.foldl camStep st).serial =
          (match st.serial with
           | some m => some m
           | none => firstKeyWith md "serial") := by
  intro md
  induction md with
  | nil =>
    intro _ _ _ st _
    cases hm : st.serial <;> simp [firstKeyWith, hm]
  | cons kv rest ih =>
    intro hsep1 hsep2 hne st hst
    have hsep1r : ∀ kv' ∈ rest, (keyHas kv'.1 "make" && keyHas kv'.1 "serial") = false :=
      fun kv' h => hsep1 kv' (List.mem_cons_of_mem _ h)
    have hsep2r : ∀ kv' ∈ rest, (keyHas kv'.1 "model" && keyHas kv'.1 "serial") = false :=
      fun kv' h => hsep2 kv' (List.mem_cons_of_mem _ h)
    have hner : ∀ kv' ∈ rest, pyStr kv'.2 ≠ "" :=
      fun kv' h => hne kv' (List.mem_cons_of_mem _ h)
    rw [List.foldl_cons]
    by_cases hsr : keyHas kv.1 "serial" = true
    · have hmk : keyHas kv.1 "make" = false := by
        have := hsep1 kv (List.mem_cons_self _ _)
        rcases Bool.eq_false_or_eq_true (keyHas kv.1 "make") with h | h
        · rw [h, hsr] at this; simp at this
        · exact h
      have hmo : keyHas kv.1 "model" = false := by
        have := hsep2 kv (List.mem_cons_self _ _)
        rcases Bool.eq_false_or_eq_true (keyHas kv.1 "model") with h | h
        · rw [h, hsr] at this; simp at this
        · exact h
      rcases hst with hnone | htr
      · have hstep : camStep st kv = { st with serial := some (pyStr kv.2) } := by
          unfold camStep
          rw [if_neg (by simp only [keyHas] at hmk; simp [hmk])]
          rw [if_neg (by simp only [keyHas] at hmo; simp [hmo])]
          rw [if_pos (by
            simp only [keyHas] at hsr
            simp [hsr, hnone, camTruthy])]
        rw [hstep]
        rw [ih hsep1r hsep2r hner _ (Or.inr (by
          simp [camTruthy, hne kv (List.mem_cons_self _ _)]))]
        rw [hnone]
        dsimp only
        rw [firstKeyWith_cons_pos hsr]
      · have hm : (camStep st kv).serial = st.serial := by
          unfold camStep
          split_ifs with h1 h2 h3 <;> try rfl
          rw [htr] at h3
          simp at h3
        rw [ih hsep1r hsep2r hner _ (by rw [hm]; exact Or.inr htr), hm]
        rcases hmm : st.serial with _ | m
        · rw [hmm] at htr; simp [camTruthy] at htr
        · rfl
    · have hm : (camStep st kv).serial = st.serial := by
        unfold camStep
        split_ifs with h1 h2 h3 <;> try rfl
        simp only [keyHas] at hsr
        simp [hsr] at h3
      rw [ih hsep1r hsep2r hner _ (by rw [hm]; exact hst), hm]
      cases hmm : st.serial with
      | some m => rfl
      | none => rw [firstKeyWith_cons_neg hsr]

/-- Lens attachment does not affect the other camera keys. -/
theorem dictGet_lensWrap (metadata : Dict) (c : Dict) (k : String)
    (h : k ≠ "OSINT_Lens_Info") : dictGet (lensWrap metadata c) k = dictGet c k := by
  unfold lensWrap
  cases extract_lens_info metadata with
  | none => rfl
  | some li => exact dictGet_dictSet_ne c "OSINT_Lens_Info" (.vStr li) k h

/-- C5 (amended): under the separation hypothesis that no key carries two
of the markers `make`/`model`/`serial` (the source's `elif` chain otherwise
diverts a key to the earliest listed category only) and that every value
stringifies non-empty (the source's `not make` truthiness guards otherwise
let a later key overwrite), the camera analysis takes
`OSINT_Camera_Make`/`OSINT_Camera_Model`/`OSINT_Camera_Serial` from the
first key containing the respective marker; a found serial additionally
yields its MD5 and SHA-1 digests, and a found make and model yield the
combined fingerprint and search URL. -/
theorem camera_osint_spec (env : Env) (metadata : Dict)
    (hsep : ∀ kv ∈ metadata,
      (keyHas kv.1 "make" && keyHas kv.1 "model") = false ∧
      (keyHas kv.1 "make" && keyHas kv.1 "serial") = false ∧
      (keyHas kv.1 "model" && keyHas kv.1 "serial") = false)
    (hne : ∀ kv ∈ metadata, pyStr kv.2 ≠ "") :
    dictGet (camera_osint_analysis env metadata) "OSINT_Camera_Make"
        = (firstKeyWith metadata "make").map Value.vStr ∧
    dictGet (camera_osint_analysis env metadata) "OSINT_Camera_Model"
        = (firstKeyWith metadata "model").map Value.vStr ∧
    dictGet (camera_osint_analysis env metadata) "OSINT_Camera_Serial"
        = (firstKeyWith metadata "serial").map Value.vStr ∧
    (∀ s, firstKeyWith metadata "serial" = some s →
      dictGet (camera_osint_analysis env metadata) "OSINT_Serial_Hash_MD5"
          = some (.vStr (env.md5 (strBytes s))) ∧
      dictGet (camera_osint_analysis env metadata) "OSINT_Serial_Hash_SHA1"
          = some (.vStr (env.sha1 (strBytes s)))) ∧
    (∀ a b, firstKeyWith metadata "make" = some a →
        firstKeyWith metadata "model" = some b →
      dictGet (camera_osint_analysis env metadata) "OSINT_Device_Fingerprint"
          = some (.vStr (a ++ " " ++ b)) ∧
      dictGet (camera_osint_analysis env metadata) "OSINT_Device_Search"
          = some (.vStr ("https://www.google.com/search?q=" ++ a ++ "+" ++ b ++ "+camera"))) := by
  have hma0 := camFold_make metadata hne {} (Or.inl rfl)
  have hmo0 := camFold_model metadata (fun kv h => (hsep kv h).1) hne {} (Or.inl rfl)
  have hsr0 := camFold_serial metadata (fun kv h => (hsep kv h).2.1)
    (fun kv h => (hsep kv h).2.2) hne {} (Or.inl rfl)
  have hval : ∀ m s, firstKeyWith metadata m = some s → s ≠ "" := by
    intro m s hfk
    unfold firstKeyWith at hfk
    cases hfind : metadata.find? (fun kv => keyHas kv.1 m) with
    | none => rw [hfind] at hfk; simp at hfk
    | some kv0 =>
      rw [hfind] at hfk
      simp only [Option.map_some'] at hfk
      injection hfk with hfk2
      rw [← hfk2]
      exact hne kv0 (List.mem_of_find?_eq_some hfind)
  unfold camera_osint_analysis
  rcases hfold : metadata.foldl camStep ({} : CamState) with ⟨ma, mo, sr⟩
  rw [hfold] at hma0 hmo0 hsr0
  dsimp only at hma0 hmo0 hsr0
  subst hma0
  subst hmo0
  subst hsr0
  rcases hfk1 : firstKeyWith metadata "make" with _ | a <;>
    rcases hfk2 : firstKeyWith metadata "model" with _ | b <;>
      rcases hfk3 : firstKeyWith metadata "serial" with _ | s
  · have hC : camFields env ⟨none, none, none⟩ = [] := by
      unfold camFields; dsimp only
    refine ⟨?_, ?_, ?_, ?_, ?_⟩
    · rw [dictGet_lensWrap _ _ _ (by decide), hC]; rfl
    · rw [dictGet_lensWrap _ _ _ (by decide), hC]; rfl
    · rw [dictGet_lensWrap _ _ _ (by decide), hC]; rfl
    · intro s' hs'; simp at hs'
    · intro a' b' ha' hb'; simp at ha'
  · have hs := hval _ _ hfk3
    have hC : camFields env ⟨none, none, some s⟩ =
        [("OSINT_Camera_Serial", .vStr s),
         ("OSINT_Serial_Hash_MD5", .vStr (env.md5 (strBytes s))),
         ("OSINT_Serial_Hash_SHA1", .vStr (env.sha1 (strBytes s)))] := by
      unfold camFields; dsimp only
      rw [if_pos hs]
      rfl
    refine ⟨?_, ?_, ?_, ?_, ?_⟩
    · rw [dictGet_lensWrap _ _ _ (by decide), hC]; rfl
    · rw [dictGet_lensWrap _ _ _ (by decide), hC]; rfl
    · rw [dictGet_lensWrap _ _ _ (by decide), hC]; rfl
    · intro s' hs'
      injection hs' with he
      subst he
      exact ⟨by rw [dictGet_lensWrap _ _ _ (by decide), hC]; rfl,
             by rw [dictGet_lensWrap _ _ _ (by decide), hC]; rfl⟩
    · intro a' b' ha' hb'; simp at ha'
  · have hb := hval _ _ hfk2
    have hC : camFields env ⟨none, some b, none⟩ =
        [("OSINT_Camera_Model", .vStr b)] := by
      unfold camFields; dsimp only
      rw [if_pos hb]
      rfl
    refine ⟨?_, ?_, ?_, ?_, ?_⟩
    · rw [dictGet_lensWrap _ _ _ (by decide), hC]; rfl
    · rw [dictGet_lensWrap _ _ _ (by decide), hC]; rfl
    · rw [dictGet_lensWrap _ _ _ (by decide), hC]; rfl
    · intro s' hs'; simp at hs'
    · intro a' b' ha' hb'; simp at ha'
  · have hb := hval _ _ hfk2
    have hs := hval _ _ hfk3
    have hC : camFields env ⟨none, some b, some s⟩ =
        [("OSINT_Camera_Model", .vStr b),
         ("OSINT_Camera_Serial", .vStr s),
         ("OSINT_Serial_Hash_MD5", .vStr (env.md5 (strBytes s))),
         ("OSINT_Serial_Hash_SHA1", .vStr (env.sha1 (strBytes s)))] := by
      unfold camFields; dsimp only
      rw [if_pos hb, if_pos hs]
      rfl
    refine ⟨?_, ?_, ?_, ?_, ?_⟩
    · rw [dictGet_lensWrap _ _ _ (by decide), hC]; rfl
    · rw [dictGet_lensWrap _ _ _ (by decide), hC]; rfl
    · rw [dictGet_lensWrap _ _ _ (by decide), hC]; rfl
    · intro s' hs'
      injection hs' with he
      subst he
      exact ⟨by rw [dictGet_lensWrap _ _ _ (by decide), hC]; rfl,
             by rw [dictGet_lensWrap _ _ _ (by decide), hC]; rfl⟩
    · intro a' b' ha' hb'; simp at ha'
  · have ha := hval _ _ hfk1
    have hC : camFields env ⟨some a, none, none⟩ =
        [("OSINT_Camera_Make", .vStr a)] := by
      unfold camFields; dsimp only
      rw [if_pos ha]
      rfl
    refine ⟨?_, ?_, ?_, ?_, ?_⟩
    · rw [dictGet_lensWrap _ _ _ (by decide), hC]; rfl
    · rw [dictGet_lensWrap _ _ _ (by decide), hC]; rfl
    · rw [dictGet_lensWrap _ _ _ (by decide), hC]; rfl
    · intro s' hs'; simp at hs'
    · intro a' b' ha' hb'; simp at hb'
  · have ha := hval _ _ hfk1
    have hs := hval _ _ hfk3
    have hC : camFields env ⟨some a, none, some s⟩ =
        [("OSINT_Camera_Make", .vStr a),
         ("OSINT_Camera_Serial", .vStr s),
         ("OSINT_Serial_Hash_MD5", .vStr (env.md5 (strBytes s))),
         ("OSINT_Serial_Hash_SHA1", .vStr (env.sha1 (strBytes s)))] := by
      unfold camFields; dsimp only
      rw [if_pos ha, if_pos hs]
      rfl
    refine ⟨?_, ?_, ?_, ?_, ?_⟩
    · rw [dictGet_lensWrap _ _ _ (by decide), hC]; rfl
    · rw [dictGet_lensWrap _ _ _ (by decide), hC]; rfl
    · rw [dictGet_lensWrap _ _ _ (by decide), hC]; rfl
    · intro s' hs'
      injection hs' with he
      subst he
      exact ⟨by rw [dictGet_lensWrap _ _ _ (by decide), hC]; rfl,
             by rw [dictGet_lensWrap _ _ _ (by decide), hC]; rfl⟩
    · intro a' b' ha' hb'; simp at hb'
  · have ha := hval _ _ hfk1
    have hb := hval _ _ hfk2
    have hC : camFields env ⟨some a, some b, none⟩ =
        [("OSINT_Camera_Make", .vStr a),
         ("OSINT_Camera_Model", .vStr b),
         ("OSINT_Device_Fingerprint", .vStr (a ++ " " ++ b)),
         ("OSINT_Device_Search",
          .vStr ("https://www.google.com/search?q=" ++ a ++ "+" ++ b ++ "+camera"))] := by
      unfold camFields; dsimp only
      rw [if_pos ha, if_pos hb, if_pos (And.intro ha hb)]
      rfl
    refine ⟨?_, ?_, ?_, ?_, ?_⟩
    · rw [dictGet_lensWrap _ _ _ (by decide), hC]; rfl
    · rw [dictGet_lensWrap _ _ _ (by decide), hC]; rfl
    · rw [dictGet_lensWrap _ _ _ (by decide), hC]; rfl
    · intro s' hs'; simp at hs'
    · intro a' b' ha' hb'
      injection ha' with hea
      injection hb' with heb
      subst hea
      subst heb
      exact ⟨by rw [dictGet_lensWrap _ _ _ (by decide), hC]; rfl,
             by rw [dictGet_lensWrap _ _ _ (by decide), hC]; rfl⟩
  · have ha := hval _ _ hfk1
    have hb := hval _ _ hfk2
    have hs := hval _ _ hfk3
    have hC : camFields env ⟨some a, some b, some s⟩ =
        [("OSINT_Camera_Make", .vStr a),
         ("OSINT_Camera_Model", .vStr b),
         ("OSINT_Camera_Serial", .vStr s),
         ("OSINT_Serial_Hash_MD5", .vStr (env.md5 (strBytes s))),
         ("OSINT_Serial_Hash_SHA1", .vStr (env.sha1 (strBytes s))),
         ("OSINT_Device_Fingerprint", .vStr (a ++ " " ++ b)),
         ("OSINT_Device_Search",
          .vStr ("https://www.google.com/search?q=" ++ a ++ "+" ++ b ++ "+camera"))] := by
      unfold camFields; dsimp only
      rw [if_pos ha, if_pos hb, if_pos hs, if_pos (And.intro ha hb)]
      rfl
    refine ⟨?_, ?_, ?_, ?_, ?_⟩
    · rw [dictGet_lensWrap _ _ _ (by decide), hC]; rfl
    · rw [dictGet_lensWrap _ _ _ (by decide), hC]; rfl
    · rw [dictGet_lensWrap _ _ _ (by decide), hC]; rfl
    · intro s' hs'
      injection hs' with he
      subst he
      exact ⟨by rw [dictGet_lensWrap _ _ _ (by decide), hC]; rfl,
             by rw [dictGet_lensWrap _ _ _ (by decide), hC]; rfl⟩
    · intro a' b' ha' hb'
      injection ha' with hea
      injection hb' with heb
      subst hea
      subst heb
      exact ⟨by rw [dictGet_lensWrap _ _ _ (by decide), hC]; rfl,
             by rw [dictGet_lensWrap _ _ _ (by decide), hC]; rfl⟩

/-- C5 counterexample: for the record `{"make model": "A"}`, whose single
key contains both markers, the `elif` chain assigns the value to `make`
only; `OSINT_Camera_Model` is absent even though "make model" is the first
key containing `model` — the claim as stated would require
`OSINT_Camera_Model = "A"`. -/
theorem camera_osint_counterexample :
    dictGet (camera_osint_analysis trivEnv [("make model", .vStr "A")])
        "OSINT_Camera_Make" = some (.vStr "A") ∧
    dictGet (camera_osint_analysis trivEnv [("make model", .vStr "A")])
        "OSINT_Camera_Model" = none ∧
    keyHas "make model" "model" = true := by
  refine ⟨?_, ?_, ?_⟩ <;> with_unfolding_all rfl

/-- A clean camera record: each key carries exactly one marker and every
value is non-empty. -/
def mdC5 : Dict :=
  [("Image Make", .vStr "Canon"), ("Image Model", .vStr "EOS"),
   ("BodySerialNumber", .vStr "123")]

/-- C5 witness: the amended theorem applied to a concrete clean record. -/
theorem camera_osint_spec_witness :
    dictGet (camera_osint_analysis trivEnv mdC5) "OSINT_Camera_Make"
        = (firstKeyWith mdC5 "make").map Value.vStr ∧
    dictGet (camera_osint_analysis trivEnv mdC5) "OSINT_Camera_Model"
        = (firstKeyWith mdC5 "model").map Value.vStr ∧
    dictGet (camera_osint_analysis trivEnv mdC5) "OSINT_Camera_Serial"
        = (firstKeyWith mdC5 "serial").map Value.vStr ∧
    (∀ s, firstKeyWith mdC5 "serial" = some s →
      dictGet (camera_osint_analysis trivEnv mdC5) "OSINT_Serial_Hash_MD5"
          = some (.vStr (trivEnv.md5 (strBytes s))) ∧
      dictGet (camera_osint_analysis trivEnv mdC5) "OSINT_Serial_Hash_SHA1"
          = some (.vStr (trivEnv.sha1 (strBytes s)))) ∧
    (∀ a b, firstKeyWith mdC5 "make" = some a →
        firstKeyWith mdC5 "model" = some b →
      dictGet (camera_osint_analysis trivEnv mdC5) "OSINT_Device_Fingerprint"
          = some (.vStr (a ++ " " ++ b)) ∧
      dictGet (camera_osint_analysis trivEnv mdC5) "OSINT_Device_Search"
          = some (.vStr ("https://www.google.com/search?q=" ++ a ++ "+" ++ b ++ "+camera"))) :=
  camera_osint_spec trivEnv mdC5 (by with_unfolding_all decide)
    (by with_unfolding_all decide)

/-! ### Claim C3: the two-tier coordinate search -/

/-- Tier-1 key test for the latitude component (`gps` and `decimal` in the
lowered key, then `latitude`). -/
def tier1LatPred (k : String) : Bool :=
  containsSub (pyLower k) "gps" && containsSub (pyLower k) "decimal" &&
    containsSub (pyLower k) "latitude"

/-- Tier-1 key test for the longitude component (the `elif` means a key
containing `latitude` never reaches the longitude branch). -/
def tier1LonPred (k : String) : Bool :=
  containsSub (pyLower k) "gps" && containsSub (pyLower k) "decimal" &&
    !containsSub (pyLower k) "latitude" && containsSub (pyLower k) "longitude"

/-- The last successful parse among a list of candidate values (each
successful parse overwrites; failures are skipped). -/
def lastParse (env : Env) (l : Dict) (init : Option Rat) : Option Rat :=
  l.foldl
    (fun acc kv =>
      match pyFloatV env kv.2 with
      | some q => some q
      | none => acc)
    init

/-- Spec-side resolver (amended): tier 1 resolves each component from the
LAST key matching its predicate that parses; tier 2 (the `coordinates`
scan) is consulted only when a component is unresolved; a pair is returned
only when both components resolved. -/
def resolveTwoTier (env : Env) (metadata : Dict) : Option (Rat × Rat) :=
  coordFinish
    (if (lastParse env (metadata.filter fun kv => tier1LatPred kv.1) none) = none ∨
        (lastParse env (metadata.filter fun kv => tier1LonPred kv.1) none) = none then
      (metadata.filter fun kv => containsSub (pyLower kv.1) "coordinates").foldl
        (coordTier2Body env)
        (lastParse env (metadata.filter fun kv => tier1LatPred kv.1) none,
         lastParse env (metadata.filter fun kv => tier1LonPred kv.1) none)
    else
      (lastParse env (metadata.filter fun kv => tier1LatPred kv.1) none,
       lastParse env (metadata.filter fun kv => tier1LonPred kv.1) none))

/-- The claim's resolver as stated: FIRST successful parse per component. -/
def resolveFirstWins (env : Env) (metadata : Dict) : Option (Rat × Rat) :=
  coordFinish
    (if ((metadata.filter fun kv => tier1LatPred kv.1).filterMap
          fun kv => pyFloatV env kv.2).head? = none ∨
        ((metadata.filter fun kv => tier1LonPred kv.1).filterMap
          fun kv => pyFloatV env kv.2).head? = none then
      (metadata.filter fun kv => containsSub (pyLower kv.1) "coordinates").foldl
        (coordTier2Body env)
        (((metadata.filter fun kv => tier1LatPred kv.1).filterMap
           fun kv => pyFloatV env kv.2).head?,
         ((metadata.filter fun kv => tier1LonPred kv.1).filterMap
           fun kv => pyFloatV env kv.2).head?)
    else
      (((metadata.filter fun kv => tier1LatPred kv.1).filterMap
         fun kv => pyFloatV env kv.2).head?,
       ((metadata.filter fun kv => tier1LonPred kv.1).filterMap
         fun kv => pyFloatV env kv.2).head?))

/-- The tier-1 loop is the pair of componentwise last-parse folds over the
keys matching each predicate. -/
theorem tier1_fold_eq (env : Env) :
    ∀ (md : Dict) (a b : Option Rat),
      md.foldl (coordTier1Step env) (a, b) =
        (lastParse env (md.filter fun kv => tier1LatPred kv.1) a,
         lastParse env (md.filter fun kv => tier1LonPred kv.1) b) := by
  intro md
  induction md with
  | nil => intro a b; rfl
  | cons kv rest ih =>
    intro a b
    rw [List.foldl_cons]
    by_cases hgd : (containsSub (pyLower kv.1) "gps" &&
        containsSub (pyLower kv.1) "decimal") = true
    · by_cases hla : containsSub (pyLower kv.1) "latitude" = true
      · have hstep : coordTier1Step env (a, b) kv =
            ((match pyFloatV env kv.2 with | some q => some q | none => a), b) := by
          unfold coordTier1Step
          rw [if_pos hgd, if_pos hla]
          cases pyFloatV env kv.2 <;> rfl
        have hP : tier1LatPred kv.1 = true := by
          unfold tier1LatPred
          rw [hgd, hla]
          rfl
        have hQ : tier1LonPred kv.1 = false := by
          unfold tier1LonPred
          rw [hla]
          simp
        rw [hstep, ih]
        simp only [List.filter_cons, hP, hQ, if_pos, if_neg]
        simp [lastParse]
      · by_cases hlo : containsSub (pyLower kv.1) "longitude" = true
        · have hstep : coordTier1Step env (a, b) kv =
              (a, (match pyFloatV env kv.2 with | some q => some q | none => b)) := by
            unfold coordTier1Step
            rw [if_pos hgd, if_neg hla, if_pos hlo]
            cases pyFloatV env kv.2 <;> rfl
          have hP : tier1LatPred kv.1 = false := by
            unfold tier1LatPred
            simp [hla]
          have hQ : tier1LonPred kv.1 = true := by
            unfold tier1LonPred
            rw [hgd, hlo]
            simp [hla]
          rw [hstep, ih]
          simp only [List.filter_cons, hP, hQ]
          simp [lastParse]
        · have hstep : coordTier1Step env (a, b) kv = (a, b) := by
            unfold coordTier1Step
            rw [if_pos hgd, if_neg hla, if_neg hlo]
          have hP : tier1LatPred kv.1 = false := by
            unfold tier1LatPred
            simp [hla]
          have hQ : tier1LonPred kv.1 = false := by
            unfold tier1LonPred
            simp [hlo]
          rw [hstep, ih]
          simp [List.filter_cons, hP, hQ]
    · have hstep : coordTier1Step env (a, b) kv = (a, b) := by
        unfold coordTier1Step
        rw [if_neg hgd]
      have hP : tier1LatPred kv.1 = false := by
        unfold tier1LatPred
        rcases Bool.eq_false_or_eq_true (containsSub (pyLower kv.1) "gps" &&
            containsSub (pyLower kv.1) "decimal") with h | h
        · rw [h] at hgd; exact absurd rfl hgd
        · rw [h]
          rfl
      have hQ : tier1LonPred kv.1 = false := by
        unfold tier1LonPred
        rcases Bool.eq_false_or_eq_true (containsSub (pyLower kv.1) "gps" &&
            containsSub (pyLower kv.1) "decimal") with h | h
        · rw [h] at hgd; exact absurd rfl hgd
        · rw [h]
          rfl
      rw [hstep, ih]
      simp [List.filter_cons, hP, hQ]

/-- The tier-2 loop (guard inside the loop) equals the fold of the loop
body over the keys containing `coordinates`. -/
theorem tier2_fold_eq (env : Env) :
    ∀ (md : Dict) (s : Option Rat × Option Rat),
      md.foldl (coordTier2Step env) s =
        (md.filter fun kv => containsSub (pyLower kv.1) "coordinates").foldl
          (coordTier2Body env) s := by
  intro md
  induction md with
  | nil => intro s; rfl
  | cons kv rest ih =>
    intro s
    rw [List.foldl_cons]
    by_cases h : containsSub (pyLower kv.1) "coordinates" = true
    · rw [show coordTier2Step env s kv = coordTier2Body env s kv from by
        unfold coordTier2Step; rw [if_pos h]]
      simp [List.filter_cons, h, ih]
    · rw [show coordTier2Step env s kv = s from by
        unfold coordTier2Step; rw [if_neg h]]
      simp [List.filter_cons, h, ih]

/-- C3 (amended): `_extract_coordinates` implements the two-tier search in
which, in the first tier, the LAST key containing a GPS marker and
`decimal` and `latitude`/`longitude` whose value parses as a float wins
for its component (each successful parse overwrites; parse failures are
silently skipped and do not abort the scan; a key containing `latitude`
never feeds the longitude component, per the `elif`); the `coordinates`
keys are consulted only if a component remains unresolved; a pair is
returned only if both components were resolved, otherwise nothing; and
the function is total (never raises). -/
theorem extract_coordinates_spec (env : Env) (metadata : Dict) :
    extract_coordinates env metadata = resolveTwoTier env metadata := by
  unfold extract_coordinates resolveTwoTier tier2Maybe
  rw [tier1_fold_eq env metadata none none, tier2_fold_eq env metadata]

/-- C3 witness: the equivalence applied at a concrete environment/record. -/
theorem extract_coordinates_spec_witness :
    extract_coordinates trivEnv
        [("gps decimal latitude", .vStr "1"), ("gps decimal longitude", .vStr "2")] =
      resolveTwoTier trivEnv
        [("gps decimal latitude", .vStr "1"), ("gps decimal longitude", .vStr "2")] :=
  extract_coordinates_spec trivEnv
    [("gps decimal latitude", .vStr "1"), ("gps decimal longitude", .vStr "2")]

/-- A record with two parsing latitude keys: the claim's first-match rule
would resolve latitude 1, the source resolves latitude 2. -/
def mdC3 : Dict :=
  [("GPS Decimal Latitude A", .vStr "1"),
   ("GPS Decimal Latitude B", .vStr "2"),
   ("GPS Decimal Longitude", .vStr "7")]

/-- C3 counterexample: on `mdC3` the source returns latitude 2 (the last
parsing match), while the claim's first-match-wins search returns
latitude 1. -/
theorem extract_coordinates_counterexample :
    extract_coordinates trivEnv mdC3 = some (2, 7) ∧
    resolveFirstWins trivEnv mdC3 = some (1, 7) := by
  constructor <;> with_unfolding_all decide

/-! ### Claim C2: enrichment never clobbers base fields -/

/-- All keys of a dictionary carry the reserved `OSINT_` prefix. -/
def OKeys (d : Dict) : Prop := ∀ kv ∈ d, strStarts "OSINT_" kv.1 = true

theorem OKeys_nil : OKeys [] := fun kv h => absurd h (List.not_mem_nil kv)

theorem OKeys_set {d : Dict} {k : String} {v : Value} (h : OKeys d)
    (hk : strStarts "OSINT_" k = true) : OKeys (dictSet d k v) :=
  @dictSet_key_pred (fun s => strStarts "OSINT_" s = true) d k v h hk

/-- A prefix of `q` is a prefix of `q ++ r`. -/
theorem chPre_append_left :
    ∀ (p q r : List Char), chPre p q = true → chPre p (q ++ r) = true := by
  intro p
  induction p with
  | nil => intro q r _; rfl
  | cons a as ih =>
    intro q r h
    cases q with
    | nil => simp [chPre] at h
    | cons b bs =>
      simp only [chPre, Bool.and_eq_true] at h ⊢
      exact ⟨h.1, ih bs r h.2⟩

theorem strStarts_append_left {p q : String} (h : strStarts p q = true)
    (r : String) : strStarts p (q ++ r) = true := by
  show chPre p.data (q ++ r).data = true
  have : (q ++ r).data = q.data ++ r.data := rfl
  rw [this]
  exact chPre_append_left _ _ _ h

/-- Every field the GPS analysis emits is `OSINT_`-prefixed. -/
theorem gps_osint_keys (env : Env) (metadata : Dict) :
    OKeys (gps_osint_analysis env metadata) := by
  unfold gps_osint_analysis
  repeat' first
  | exact OKeys_nil
  | refine OKeys_set ?_ (by decide)
  | dsimp only
  | split

/-- Every field the camera analysis emits is `OSINT_`-prefixed. -/
theorem camera_osint_keys (env : Env) (metadata : Dict) :
    OKeys (camera_osint_analysis env metadata) := by
  unfold camera_osint_analysis lensWrap camFields
  repeat' first
  | exact OKeys_nil
  | refine OKeys_set ?_ (by decide)
  | dsimp only
  | split

/-- Every field the temporal analysis emits is `OSINT_`-prefixed. -/
theorem time_analysis_keys (metadata : Dict) : OKeys (time_analysis metadata) := by
  unfold time_analysis
  have hfold : ∀ (l : List (Nat × (String × Value))) (init : Dict), OKeys init →
      OKeys (l.foldl
        (fun acc ikv =>
          dictSet acc ("OSINT_Time_" ++ toString (ikv.1 + 1))
            (.vStr (ikv.2.1 ++ ": " ++ pyStr ikv.2.2)))
        init) := by
    intro l init hinit
    refine @foldl_key_pred _ (fun s => strStarts "OSINT_" s = true) _ ?_ l init hinit
    intro d x hd
    exact @dictSet_key_pred (fun s => strStarts "OSINT_" s = true) d _ _ hd
      (strStarts_append_left (by decide) _)
  repeat' first
  | exact OKeys_nil
  | refine OKeys_set ?_ (by decide)
  | apply hfold
  | dsimp only
  | split

/-- Every field the forensic analysis emits is `OSINT_`-prefixed. -/
theorem forensic_analysis_keys (env : Env) (path : String) :
    OKeys (forensic_analysis env path) := by
  unfold forensic_analysis
  repeat' first
  | exact OKeys_nil
  | refine OKeys_set ?_ (by decide)
  | dsimp only
  | split

/-- Every field the network analysis emits is `OSINT_`-prefixed. -/
theorem network_analysis_keys (metadata : Dict) : OKeys (network_analysis metadata) := by
  unfold network_analysis
  refine @foldl_key_pred _ (fun s => strStarts "OSINT_" s = true) _ ?_ metadata []
    (fun kv h => absurd h (List.not_mem_nil kv))
  intro d x hd
  dsimp only
  repeat' first
  | exact hd
  | refine @dictSet_key_pred (fun s => strStarts "OSINT_" s = true) _ _ _ ?_
      (strStarts_append_left (by decide) _)
  | split

/-- C2 (amended): for any base record NONE OF WHOSE KEYS carries the
reserved `OSINT_` prefix, every key of the base record appears in
`enhance_metadata(base, path)` with an unchanged value, for any
environment (in particular when every analysis fails).  The reservation
hypothesis is necessary: enrichment keys such as `OSINT_URL_In_{key}` can
collide with and overwrite equally-named base keys. -/
theorem enhance_metadata_superset (env : Env) (metadata : Dict) (image_path : String)
    (hbase : ∀ kv ∈ metadata, strStarts "OSINT_" kv.1 = false) :
    ∀ k v, dictGet metadata k = some v →
      dictGet (enhance_metadata env metadata image_path) k = some v := by
  intro k v hget
  have hk : strStarts "OSINT_" k = false := by
    unfold dictGet at hget
    cases hfind : metadata.find? (fun kv => decide (kv.1 = k)) with
    | none => rw [hfind] at hget; simp at hget
    | some kv0 =>
      have hmem := List.mem_of_find?_eq_some hfind
      have hp := List.find?_some hfind
      simp only [decide_eq_true_eq] at hp
      rw [← hp]
      exact hbase kv0 hmem
  have hne : ∀ (e : Dict), OKeys e → ∀ kv ∈ e, kv.1 ≠ k :=
    fun e he kv hkv => ne_of_starts_of_not_starts (he kv hkv) hk
  have step : ∀ (d e : Dict), OKeys e →
      dictGet (dictUpdate d e) k = dictGet d k :=
    fun d e he => dictGet_dictUpdate_ne e d k (hne e he)
  unfold enhance_metadata
  dsimp only
  cases hmap : create_osm_map env metadata with
  | some p =>
    rw [dictGet_dictSet_ne _ _ _ _
      (Ne.symm (ne_of_starts_of_not_starts (by decide) hk))]
    rw [step _ _ (network_analysis_keys metadata)]
    rw [step _ _ (forensic_analysis_keys env image_path)]
    rw [step _ _ (time_analysis_keys metadata)]
    rw [step _ _ (camera_osint_keys env metadata)]
    rw [step _ _ (gps_osint_keys env metadata)]
    exact hget
  | none =>
    rw [step _ _ (network_analysis_keys metadata)]
    rw [step _ _ (forensic_analysis_keys env image_path)]
    rw [step _ _ (time_analysis_keys metadata)]
    rw [step _ _ (camera_osint_keys env metadata)]
    rw [step _ _ (gps_osint_keys env metadata)]
    exact hget

/-- A base record that already contains an `OSINT_URL_In_X` key. -/
def mdC2 : Dict :=
  [("X", .vStr "http://a"), ("OSINT_URL_In_X", .vStr "orig")]

/-- C2 counterexample: the network-indicator analysis emits
`OSINT_URL_In_X` for the base key `X`, and `dict.update` overwrites the
pre-existing base field `OSINT_URL_In_X` — so for this base record
enrichment mutates a pre-existing field, contradicting the claim's "for
any base record". -/
theorem enhance_metadata_counterexample :
    dictGet mdC2 "OSINT_URL_In_X" = some (.vStr "orig") ∧
    dictGet (enhance_metadata trivEnv mdC2 "p.jpg") "OSINT_URL_In_X" =
      some (.vStr "http://a") := by
  constructor <;> with_unfolding_all decide

/-- C2 witness: the amended theorem applied at a concrete record. -/
theorem enhance_metadata_superset_witness :
    dictGet (enhance_metadata trivEnv [("A", Value.vStr "1")] "p.jpg") "A" =
      some (.vStr "1") :=
  enhance_metadata_superset trivEnv [("A", .vStr "1")] "p.jpg" (by decide)
    "A" (.vStr "1") (by decide)

/-! ### Claim C10: a reverse-geocoding raise is contained -/

/-- C10: if a coordinate resolves but the first reverse-geocoding call
raises (e.g. a timeout), the GPS analysis contributes exactly
`OSINT_Coordinates` and a single `OSINT_GPS_Error` field — none of the
map-link, altitude or location-type fields — while the other five
analyses still run on the same inputs and contribute their fields to the
enriched record. -/
theorem gps_error_contained (env : Env) (metadata : Dict) (image_path : String)
    (lat lon : Rat) (msg : String)
    (hcoords : extract_coordinates env metadata = some (lat, lon))
    (herr : env.reverse1 (env.fstr lat ++ ", " ++ env.fstr lon) = .error msg) :
    gps_osint_analysis env metadata =
      [("OSINT_Coordinates", .vStr (formatFixed lat 6 ++ ", " ++ formatFixed lon 6)),
       ("OSINT_GPS_Error", .vStr msg)] ∧
    (∀ mk ∈ ["OSINT_Google_Maps", "OSINT_OpenStreetMap", "OSINT_Bing_Maps",
             "OSINT_Yandex_Maps", "OSINT_What3Words", "OSINT_Altitude_Analysis",
             "OSINT_Location_Type"],
      dictGet (gps_osint_analysis env metadata) mk = none) ∧
    enhance_metadata env metadata image_path =
      (let e1 := dictUpdate metadata
        [("OSINT_Coordinates", .vStr (formatFixed lat 6 ++ ", " ++ formatFixed lon 6)),
         ("OSINT_GPS_Error", .vStr msg)]
       let e2 := dictUpdate e1 (camera_osint_analysis env metadata)
       let e3 := dictUpdate e2 (time_analysis metadata)
       let e4 := dictUpdate e3 (forensic_analysis env image_path)
       let e5 := dictUpdate e4 (network_analysis metadata)
       match create_osm_map env metadata with
       | some map_path => dictSet e5 "OSINT_Map_File" (.vStr map_path)
       | none => e5) := by
  have ha : gps_osint_analysis env metadata =
      [("OSINT_Coordinates", .vStr (formatFixed lat 6 ++ ", " ++ formatFixed lon 6)),
       ("OSINT_GPS_Error", .vStr msg)] := by
    unfold gps_osint_analysis
    rw [hcoords]
    dsimp only
    rw [herr]
    rfl
  refine ⟨ha, ?_, ?_⟩
  · intro mk hmk
    rw [ha]
    fin_cases hmk <;> rfl
  · unfold enhance_metadata
    rw [ha]

/-- A record resolving to coordinates (1, 2) for the C10 witness. -/
def mdC10 : Dict :=
  [("gps decimal latitude x", .vStr "1"), ("gps decimal longitude x", .vStr "2")]

/-- C10 witness: the containment theorem applied at a concrete environment
whose geocoder raises. -/
theorem gps_error_contained_witness :
    gps_osint_analysis trivEnv mdC10 =
      [("OSINT_Coordinates", .vStr (formatFixed 1 6 ++ ", " ++ formatFixed 2 6)),
       ("OSINT_GPS_Error", .vStr "geo failed")] :=
  (gps_error_contained trivEnv mdC10 "p.jpg" 1 2 "geo failed"
    (by with_unfolding_all decide) rfl).1

/-! ### Claim C1: extract_metadata and the file-info fields -/

/-- The seven keys of the file-attributes pass. -/
def fileInfoKeys : List String :=
  ["File_Path", "File_Name", "File_Size_Bytes", "File_Size_MB",
   "File_Created", "File_Modified", "File_Extension"]

/-- `k` is none of the file-attribute keys (reducible so that `decide`
can evaluate it on literals). -/
abbrev NotFileKey (k : String) : Prop := ∀ fk ∈ fileInfoKeys, k ≠ fk

/-- A key starting with a prefix that no file-info key starts with is not
a file-info key. -/
theorem notFile_of_pre (p t : String)
    (h : ∀ fk ∈ fileInfoKeys, strStarts p fk = false) : NotFileKey (p ++ t) := by
  intro fk hfk heq
  have h1 : strStarts p (p ++ t) = true := strStarts_append p t
  rw [heq, h fk hfk] at h1
  cases h1

/-- A key that starts with a prefix no file-info key starts with is not a
file-info key. -/
theorem notFile_of_starts {p k : String} (hp : strStarts p k = true)
    (h : ∀ fk ∈ fileInfoKeys, strStarts p fk = false) : NotFileKey k := by
  intro fk hfk heq
  rw [heq, h fk hfk] at hp
  cases hp

/-- The GPS-tag collection loop of `_detailed_gps` only adds
`GPS_RAW_`-prefixed fields to the metadata component. -/
theorem gps_scan_keys :
    ∀ (tags : List (String × IfdTag)) (acc : GpsDict × Dict),
      (∀ kv ∈ acc.2, NotFileKey kv.1) →
      ∀ kv ∈ (tags.foldl
        (fun (acc : GpsDict × Dict) tkv =>
          if containsSub tkv.1 "GPS" then
            (acc.1 ++ [(tkv.1, tkv.2)],
             dictSet acc.2 ("GPS_RAW_" ++ tkv.1) (.vStr tkv.2.str))
          else acc)
        acc).2, NotFileKey kv.1 := by
  intro tags
  induction tags with
  | nil => intro acc h kv hkv; exact h kv hkv
  | cons t ts ih =>
    intro acc h kv hkv
    rw [List.foldl_cons] at hkv
    refine ih _ ?_ kv hkv
    dsimp only
    split
    · exact @dictSet_key_pred NotFileKey _ _ _ h (notFile_of_pre _ _ (by decide))
    · exact h

theorem deep_exifread_nf (env : Env) (p : String) :
    ∀ kv ∈ deep_exifread env p, NotFileKey kv.1 := by
  unfold deep_exifread
  repeat' first
  | exact (fun kv h => absurd h (List.not_mem_nil kv))
  | refine @dictSet_key_pred NotFileKey _ _ _ ?_ (by decide)
  | refine @dictSet_key_pred NotFileKey _ _ _ ?_ (notFile_of_pre _ _ (by decide))
  | refine @foldl_key_pred _ NotFileKey _ ?_ _ _ ?_
  | assumption
  | dsimp only
  | split
  | intro d x hd

theorem extended_pil_exif_nf (env : Env) (p : String) :
    ∀ kv ∈ extended_pil_exif env p, NotFileKey kv.1 := by
  unfold extended_pil_exif
  repeat' first
  | exact (fun kv h => absurd h (List.not_mem_nil kv))
  | refine @dictSet_key_pred NotFileKey _ _ _ ?_ (by decide)
  | refine @dictSet_key_pred NotFileKey _ _ _ ?_ (notFile_of_pre _ _ (by decide))
  | refine @foldl_key_pred _ NotFileKey _ ?_ _ _ ?_
  | assumption
  | dsimp only
  | split
  | intro d x hd

theorem low_level_piexif_nf (env : Env) (p : String) :
    ∀ kv ∈ low_level_piexif env p, NotFileKey kv.1 := by
  unfold low_level_piexif
  repeat' first
  | exact (fun kv h => absurd h (List.not_mem_nil kv))
  | refine @dictSet_key_pred NotFileKey _ _ _ ?_ (by decide)
  | refine @dictSet_key_pred NotFileKey _ _ _ ?_ (notFile_of_pre _ _ (by decide))
  | refine @dictSet_key_pred NotFileKey _ _ _ ?_ (@notFile_of_starts "PIEXIF_" _
      (strStarts_append_left (strStarts_append_left
        (strStarts_append_left (by decide) _) _) _) (by decide))
  | refine @foldl_key_pred _ NotFileKey _ ?_ _ _ ?_
  | assumption
  | dsimp only
  | split
  | intro d x hd

theorem detailed_gps_nf (env : Env) (p : String) :
    ∀ kv ∈ detailed_gps env p, NotFileKey kv.1 := by
  unfold detailed_gps
  repeat' first
  | exact (fun kv h => absurd h (List.not_mem_nil kv))
  | exact gps_scan_keys _ _ (fun kv h => absurd h (List.not_mem_nil kv))
  | refine @dictSet_key_pred NotFileKey _ _ _ ?_ (by decide)
  | refine @dictSet_key_pred NotFileKey _ _ _ ?_ (notFile_of_pre _ _ (by decide))
  | refine @foldl_key_pred _ NotFileKey _ ?_ _ _ ?_
  | assumption
  | dsimp only
  | split
  | intro d x hd

theorem extract_makernotes_nf (env : Env) (p : String) :
    ∀ kv ∈ extract_makernotes env p, NotFileKey kv.1 := by
  unfold extract_makernotes
  repeat' first
  | exact (fun kv h => absurd h (List.not_mem_nil kv))
  | refine @dictSet_key_pred NotFileKey _ _ _ ?_ (by decide)
  | refine @dictSet_key_pred NotFileKey _ _ _ ?_ (notFile_of_pre _ _ (by decide))
  | refine @foldl_key_pred _ NotFileKey _ ?_ _ _ ?_
  | assumption
  | dsimp only
  | split
  | intro d x hd

theorem image_technical_specs_nf (env : Env) (p : String) :
    ∀ kv ∈ image_technical_specs env p, NotFileKey kv.1 := by
  unfold image_technical_specs
  repeat' first
  | exact (fun kv h => absurd h (List.not_mem_nil kv))
  | refine @dictSet_key_pred NotFileKey _ _ _ ?_ (by decide)
  | dsimp only
  | split

theorem color_analysis_nf (env : Env) (p : String) :
    ∀ kv ∈ color_analysis env p, NotFileKey kv.1 := by
  unfold color_analysis
  repeat' first
  | exact (fun kv h => absurd h (List.not_mem_nil kv))
  | refine @dictSet_key_pred NotFileKey _ _ _ ?_ (by decide)
  | dsimp only
  | split

theorem xmp_iptc_data_nf (env : Env) (p : String) :
    ∀ kv ∈ xmp_iptc_data env p, NotFileKey kv.1 := by
  unfold xmp_iptc_data
  repeat' first
  | exact (fun kv h => absurd h (List.not_mem_nil kv))
  | refine @dictSet_key_pred NotFileKey _ _ _ ?_ (by decide)
  | dsimp only
  | split

theorem raw_specific_data_nf (p : String) :
    ∀ kv ∈ raw_specific_data p, NotFileKey kv.1 := by
  unfold raw_specific_data
  repeat' first
  | exact (fun kv h => absurd h (List.not_mem_nil kv))
  | refine @dictSet_key_pred NotFileKey _ _ _ ?_ (by decide)
  | dsimp only
  | split

/-- C1 (amended): `extract_metadata` is total (never raises) and, whenever
`os.stat` succeeds, the returned record contains all seven
file-info-derived fields with their derived values, no matter what every
other pass does.  (The "on total failure a single-entry error record"
handler exists in the source but is unreachable: every pass catches its
own exceptions.) -/
theorem extract_metadata_fileinfo (env : Env) (image_path : String) (st : PyStat)
    (hstat : env.stat image_path = .ok st) :
    dictGet (extract_metadata env image_path) "File_Path" =
      some (.vStr (env.abspath image_path)) ∧
    dictGet (extract_metadata env image_path) "File_Name" =
      some (.vStr (pyBasename image_path)) ∧
    dictGet (extract_metadata env image_path) "File_Size_Bytes" =
      some (.vInt st.size) ∧
    dictGet (extract_metadata env image_path) "File_Size_MB" =
      some (.vStr (formatFixed ((st.size : Rat) / (1024 * 1024)) 2)) ∧
    dictGet (extract_metadata env image_path) "File_Created" =
      some (.vStr (env.isoTime st.ctime)) ∧
    dictGet (extract_metadata env image_path) "File_Modified" =
      some (.vStr (env.isoTime st.mtime)) ∧
    dictGet (extract_metadata env image_path) "File_Extension" =
      some (.vStr (pyLower (pyExt image_path))) := by
  have hfi : get_file_info env image_path =
      [("File_Path", .vStr (env.abspath image_path)),
       ("File_Name", .vStr (pyBasename image_path)),
       ("File_Size_Bytes", .vInt st.size),
       ("File_Size_MB", .vStr (formatFixed ((st.size : Rat) / (1024 * 1024)) 2)),
       ("File_Created", .vStr (env.isoTime st.ctime)),
       ("File_Modified", .vStr (env.isoTime st.mtime)),
       ("File_Extension", .vStr (pyLower (pyExt image_path)))] := by
    unfold get_file_info
    rw [hstat]
    rfl
  have step : ∀ (d e : Dict), (∀ kv ∈ e, NotFileKey kv.1) →
      ∀ k, k ∈ fileInfoKeys → dictGet (dictUpdate d e) k = dictGet d k :=
    fun d e he k hk => dictGet_dictUpdate_ne e d k (fun kv hkv => he kv hkv k hk)
  unfold extract_metadata
  dsimp only
  refine ⟨?_, ?_, ?_, ?_, ?_, ?_, ?_⟩ <;>
  · rw [step _ _ (raw_specific_data_nf image_path) _ (by decide),
        step _ _ (xmp_iptc_data_nf env image_path) _ (by decide),
        step _ _ (color_analysis_nf env image_path) _ (by decide),
        step _ _ (image_technical_specs_nf env image_path) _ (by decide),
        step _ _ (extract_makernotes_nf env image_path) _ (by decide),
        step _ _ (detailed_gps_nf env image_path) _ (by decide),
        step _ _ (low_level_piexif_nf env image_path) _ (by decide),
        step _ _ (extended_pil_exif_nf env image_path) _ (by decide),
        step _ _ (deep_exifread_nf env image_path) _ (by decide),
        hfi]
    rfl

/-- C1 counterexample: for a nonexistent path (every collaborator raises),
`extract_metadata` returns `{"RAW_File": "NO"}` — a record with no
file-info-derived field and no failure-signalling entry, contradicting
the claim's "otherwise at minimum a file-info-derived record" (and the
record, though single-entry, does not signal a failure). -/
theorem extract_metadata_counterexample :
    extract_metadata trivEnv "missing.jpg" = [("RAW_File", .vStr "NO")] ∧
    dictGet (extract_metadata trivEnv "missing.jpg") "File_Path" = none ∧
    dictGet (extract_metadata trivEnv "missing.jpg") "Error" = none := by
  refine ⟨?_, ?_, ?_⟩ <;> with_unfolding_all rfl

/-- A readable file's environment for the C1 witness. -/
def envC1 : Env := { trivEnv with stat := fun _ => .ok ⟨100, 0, 0⟩ }

/-- C1 witness: the amended theorem applied at a concrete environment
whose `os.stat` succeeds. -/
theorem extract_metadata_fileinfo_witness :
    dictGet (extract_metadata envC1 "a.jpg") "File_Path" =
      some (.vStr (envC1.abspath "a.jpg")) ∧
    dictGet (extract_metadata envC1 "a.jpg") "File_Name" =
      some (.vStr (pyBasename "a.jpg")) ∧
    dictGet (extract_metadata envC1 "a.jpg") "File_Size_Bytes" =
      some (.vInt (PyStat.mk 100 0 0).size) ∧
    dictGet (extract_metadata envC1 "a.jpg") "File_Size_MB" =
      some (.vStr (formatFixed (((PyStat.mk 100 0 0).size : Rat) / (1024 * 1024)) 2)) ∧
    dictGet (extract_metadata envC1 "a.jpg") "File_Created" =
      some (.vStr (envC1.isoTime (PyStat.mk 100 0 0).ctime)) ∧
    dictGet (extract_metadata envC1 "a.jpg") "File_Modified" =
      some (.vStr (envC1.isoTime (PyStat.mk 100 0 0).mtime)) ∧
    dictGet (extract_metadata envC1 "a.jpg") "File_Extension" =
      some (.vStr (pyLower (pyExt "a.jpg"))) :=
  extract_metadata_fileinfo envC1 "a.jpg" (PyStat.mk 100 0 0) rfl
